import Mathlib

/-!
Calmora: request handlers over an explicit database and session.

A shallow embedding of the Express route handlers of the Calmora backend
(`src/routes/*.js`, `src/server.js`).  A handler is a function from the
database tables, the session of the request and the request body to a
response, the new tables and the new session.  What the handlers obtain from
outside the repository (the database engine failing, bcrypt, the session
store, the HTTP client, the mail transport, the JavaScript runtime's
conversions) is passed in explicitly as `Ext`.
-/

namespace Calmora

/-! ## JavaScript values -/

/-- A JavaScript number.  Finite doubles are embedded by value in the
rationals (the order on them is the order of the rationals; `0` stands for
both zeroes). -/
inductive JSNum where
  | nan
  | posInf
  | negInf
  | fin (q : ℚ)
  deriving DecidableEq

namespace JSNum

/-- The operator `a < b` on numbers: false as soon as one side is `NaN`. -/
def lt : JSNum → JSNum → Bool
  | fin a, fin b => decide (a < b)
  | fin _, posInf => true
  | negInf, fin _ => true
  | negInf, posInf => true
  | _, _ => false

/-- The operator `a > b` on numbers. -/
def gt (a b : JSNum) : Bool := lt b a

/-- Whether `!n` is false: every number except `0`, `-0` and `NaN`. -/
def truthy : JSNum → Bool
  | nan => false
  | fin q => decide (q ≠ 0)
  | _ => true

/-- The number of a natural number (array lengths, row ids). -/
def ofNat (n : Nat) : JSNum := fin (n : ℚ)

/-- Whether the number is an integer (`Number.isInteger`). -/
def isInteger : JSNum → Bool
  | fin q => q.isInt
  | _ => false

end JSNum

/-- A JavaScript value as it occurs in a parsed JSON body, in the session and
in the object handed to `res.json`.  Strings are the well-formed ones
(sequences of Unicode code points); an object is the list of its own
properties. -/
inductive JSVal where
  | undefined
  | null
  | bool (b : Bool)
  | num (n : JSNum)
  | str (s : String)
  | arr (items : List JSVal)
  | obj (fields : List (String × JSVal))

namespace JSVal

/-- The length of a string as `.length` reports it: UTF-16 code units. -/
def jsLength (s : String) : Nat :=
  (s.toList.map (fun c => if c.toNat < 65536 then 1 else 2)).sum

/-- Truthiness: `!v` is `!(truthy v)`. -/
def truthy : JSVal → Bool
  | undefined => false
  | null => false
  | bool b => b
  | num n => n.truthy
  | str s => s != ""
  | arr _ => true
  | obj _ => true

/-- The operator `typeof v`. -/
def typeOf : JSVal → String
  | undefined => "undefined"
  | null => "object"
  | bool _ => "boolean"
  | num _ => "number"
  | str _ => "string"
  | arr _ => "object"
  | obj _ => "object"

/-- The test `v === undefined`. -/
def isUndefined : JSVal → Bool
  | undefined => true
  | _ => false

/-- Whether reading a property of the value throws a `TypeError`. -/
def isNullish : JSVal → Bool
  | undefined => true
  | null => true
  | _ => false

/-- Reading `v.k` for the property names the handlers read (own properties of
an object, `length` of a string or an array).  Only meaningful when `v` is not
nullish; numeric keys are read with `index`. -/
def prop (v : JSVal) (k : String) : JSVal :=
  match v with
  | obj fields => (fields.lookup k).getD undefined
  | arr items => if k = "length" then num (JSNum.ofNat items.length) else undefined
  | str s => if k = "length" then num (JSNum.ofNat (jsLength s)) else undefined
  | _ => undefined

/-- Optional chaining `v?.k`. -/
def optProp (v : JSVal) (k : String) : JSVal :=
  if v.isNullish then undefined else v.prop k

/-- Reading `v[i]` (for a string: the character at `i`, exact in the basic
multilingual plane).  Only meaningful when `v` is not nullish. -/
def index (v : JSVal) (i : Nat) : JSVal :=
  match v with
  | arr items => items.getD i undefined
  | obj fields => (fields.lookup (toString i)).getD undefined
  | str s => ((s.toList.get? i).map (fun c => str (String.singleton c))).getD undefined
  | _ => undefined

/-- The operator `a || b`. -/
def or (a b : JSVal) : JSVal := if a.truthy then a else b

/-- The number that a value of `typeof` number is. -/
def asNumber : JSVal → JSNum
  | num n => n
  | _ => JSNum.nan

/-- The string that a value of `typeof` string is. -/
def asString : JSVal → String
  | str s => s
  | _ => ""

/-- The own property names of an object (`Object.keys`). -/
def keys : JSVal → List String
  | obj fields => fields.map Prod.fst
  | _ => []

/-- Whether a character is removed by `String.prototype.trim` (white space and
line terminators of ECMAScript). -/
def isJsSpace (c : Char) : Bool :=
  let n := c.toNat
  n = 9 || n = 10 || n = 11 || n = 12 || n = 13 || n = 32 || n = 160 || n = 5760
    || (8192 ≤ n && n ≤ 8202) || n = 8232 || n = 8233 || n = 8239 || n = 8287
    || n = 12288 || n = 65279

/-- The method `s.trim()`. -/
def jsTrim (s : String) : String :=
  String.mk ((s.toList.dropWhile isJsSpace).reverse.dropWhile isJsSpace).reverse

end JSVal

/-! ## What the handlers get from outside the repository -/

/-- The upstream chat-completion request of `routes/ai.js`. -/
structure ChatCall where
  url : String
  model : String
  system : String
  user : String
  temperature : ℚ
  maxTokens : Nat
  authorization : String
  referer : String
  timeoutMs : Nat
  deriving DecidableEq

/-- The error object `axios.post` rejects with: `error.response` (status and
data, when the upstream answered), whether `error.request` is set, and
`error.code`. -/
structure AxiosError where
  response : Option (Nat × JSVal)
  request : Bool
  code : Option String

/-- The mail handed to `transporter.sendMail` in `routes/contact.js`. -/
structure MailOptions where
  sender : Option String
  recipient : Option String
  subject : String
  html : String
  deriving DecidableEq

/-- The outcomes, during one request, of everything outside the repository. -/
structure Ext where
  /-- Whether the `n`-th database statement of the request throws (pool
  exhausted, connection lost, statement error); statements count from 0. -/
  dbFails : Nat → Bool
  /-- The text the connector binds for a parameter that is not a string. -/
  sqlText : JSVal → String
  /-- The timestamp the engine gives `created_at` on insertion. -/
  now : Nat
  /-- The engine's order between two rows (by id) of equal `created_at`, which
  `ORDER BY created_at DESC` leaves open. -/
  tie : Nat → Nat → Bool
  /-- The runtime's `ToNumber` on strings, arrays and objects; `none` when the
  conversion throws a `TypeError`. -/
  toNumber : JSVal → Option JSNum
  /-- The runtime's `ToString` on values that are not strings; `none` when the
  conversion throws a `TypeError`. -/
  toStr : JSVal → Option String
  /-- The call `bcrypt.hash(password, 10)`: `none` when it rejects. -/
  hash : JSVal → Option String
  /-- The call `bcrypt.compare(password, hash)`: `none` when it rejects. -/
  compare : JSVal → String → Option Bool
  /-- Whether the session store reports an error to the `destroy` callback. -/
  destroyErr : Bool
  /-- The call `axios.post`: the `data` of the response, or the error. -/
  axiosPost : ChatCall → Except AxiosError JSVal
  /-- Whether `transporter.sendMail` throws. -/
  sendMailFails : MailOptions → Bool
  /-- The option `insertIdAsNumber` of the connector: whether `result.insertId`
  of an INSERT is a Number.  `config/db.js` does not set it, so it is the
  default of the connector, which since its version 3 is false: the insertId
  is a BigInt. -/
  insertIdAsNumber : Bool

/-- The environment variables (`process.env`) the handlers read. -/
structure Config where
  OPENROUTER_API_KEY : Option String
  FRONTEND_URL : Option String
  SMTP_USER : Option String
  SMTP_PASS : Option String
  ADMIN_EMAIL : Option String

/-- Truthiness of an environment variable: set and not empty. -/
def envSet : Option String → Bool
  | some s => s != ""
  | none => false

/-- The operator `a || b` on environment variables. -/
def envOr (a b : Option String) : Option String := if envSet a then a else b

/-- The text bound for a statement parameter: a string is bound as it is. -/
def bindText (ext : Ext) : JSVal → String
  | .str s => s
  | v => ext.sqlText v

/-- The runtime's `ToNumber`; `none` when it throws. -/
def toNumber (ext : Ext) : JSVal → Option JSNum
  | .undefined => some JSNum.nan
  | .null => some (JSNum.fin 0)
  | .bool b => some (JSNum.fin (if b then 1 else 0))
  | .num n => some n
  | v => ext.toNumber v

/-- The runtime's `ToString` (template literals); `none` when it throws. -/
def toStr (ext : Ext) : JSVal → Option String
  | .str s => some s
  | v => ext.toStr v

/-- The comparison `v < n` against a number; `none` when converting `v`
throws. -/
def jsLt (ext : Ext) (v : JSVal) (n : JSNum) : Option Bool :=
  (toNumber ext v).map (fun x => x.lt n)

/-! ## Tables, session, responses -/

/-- A row of `users`. -/
structure UserRow where
  id : Nat
  name : String
  email : String
  password : String
  deriving DecidableEq

/-- A row of `moods`; `mood_level` is the number bound by the INSERT. -/
structure MoodRow where
  id : Nat
  user_id : Nat
  mood_level : JSNum
  notes : Option String
  created_at : Nat
  deriving DecidableEq

/-- A row of `messages`; `user_id` is NULL for an anonymous message. -/
structure MessageRow where
  id : Nat
  user_id : Option Nat
  message : String
  response : String
  created_at : Nat
  deriving DecidableEq

/-- A row of `resources`. -/
structure ResourceRow where
  id : Nat
  title : String
  description : String
  link : String
  category : String
  created_at : Nat
  deriving DecidableEq

/-- The four tables, each in the order in which the engine returns its rows. -/
structure Db where
  users : List UserRow
  moods : List MoodRow
  messages : List MessageRow
  resources : List ResourceRow

/-- The session of a request (`req.session`), as the session store holds it
between requests.  `userId` is only ever a row id (`result.insertId`,
`user.id`); `none` is a session without it. -/
structure Session where
  userId : Option Nat
  userName : JSVal
  userEmail : JSVal

/-- The session of a client without a stored session. -/
def Session.empty : Session := ⟨none, .undefined, .undefined⟩

/-- Truthiness of `req.session.userId`. -/
def Session.hasUser (s : Session) : Bool :=
  match s.userId with
  | some n => n != 0
  | none => false

/-- The value of `req.session.userId`. -/
def Session.userIdVal (s : Session) : JSVal :=
  match s.userId with
  | some n => .num (JSNum.ofNat n)
  | none => .undefined

/-- An HTTP response: the status and the object handed to `res.json`. -/
structure Response where
  status : Nat
  body : JSVal

/-- What a handler does outside its own variables, in order. -/
inductive Effect where
  | query (sql : String)
  | upstream (call : ChatCall)
  | mail (m : MailOptions)

/-- The outcome of a handler. -/
structure Result where
  resp : Response
  db : Db
  session : Session
  trace : List Effect

/-- The id AUTO_INCREMENT gives the next row: one more than the largest id of
the table. -/
def nextId (ids : List Nat) : Nat := ids.foldr max 0 + 1

/-- The JavaScript object of a `moods` row (`SELECT *`). -/
def MoodRow.toJS (r : MoodRow) : JSVal :=
  .obj [("id", .num (JSNum.ofNat r.id)), ("user_id", .num (JSNum.ofNat r.user_id)),
    ("mood_level", .num r.mood_level),
    ("notes", match r.notes with | some t => .str t | none => .null),
    ("created_at", .num (JSNum.ofNat r.created_at))]

/-- The JavaScript object of a `messages` row (`SELECT *`). -/
def MessageRow.toJS (r : MessageRow) : JSVal :=
  .obj [("id", .num (JSNum.ofNat r.id)),
    ("user_id", match r.user_id with | some u => .num (JSNum.ofNat u) | none => .null),
    ("message", .str r.message), ("response", .str r.response),
    ("created_at", .num (JSNum.ofNat r.created_at))]

/-- The JavaScript object of a `resources` row (`SELECT *`). -/
def ResourceRow.toJS (r : ResourceRow) : JSVal :=
  .obj [("id", .num (JSNum.ofNat r.id)), ("title", .str r.title),
    ("description", .str r.description), ("link", .str r.link),
    ("category", .str r.category), ("created_at", .num (JSNum.ofNat r.created_at))]

/-- Insertion into a list kept in the order `before`. -/
def insertBy {α : Type} (before : α → α → Bool) (x : α) : List α → List α
  | [] => [x]
  | y :: ys => if before y x then y :: insertBy before x ys else x :: y :: ys

/-- The clause `ORDER BY created_at DESC`: newest first, rows of equal
`created_at` in the order `tie` of the engine. -/
def orderByCreatedDesc {α : Type} (tie : Nat → Nat → Bool) (created : α → Nat) (id : α → Nat)
    (rows : List α) : List α :=
  rows.foldr (insertBy (fun a b =>
    decide (created b < created a) || (created a == created b && tie (id a) (id b)))) []

/-! ## routes/auth.js -/

/-- The handler `POST /api/auth/signup`.  The session of the result is the
session as the store holds it after the request.  When `result.insertId` is a
BigInt, `res.json` cannot serialise the user object and throws after the
INSERT and the assignments to `req.session`; the catch block hands the 500
answer to `res.json`.  A session that holds a BigInt cannot be serialised
either, so the store never receives these assignments and keeps the session
as it was (and ending the response may throw again, in which case the client
receives nothing). -/
def signup (ext : Ext) (db : Db) (sess : Session) (body : JSVal) : Result :=
  -- const { username, email, password } = req.body
  if body.isNullish then
    ⟨⟨500, .obj [("error", .str "Server error during registration")]⟩, db, sess, []⟩
  else
    let username := body.prop "username"
    let email := body.prop "email"
    let password := body.prop "password"
    if !username.truthy || !email.truthy || !password.truthy then
      ⟨⟨400, .obj [("error", .str "All fields are required")]⟩, db, sess, []⟩
    else
      match jsLt ext (password.prop "length") (.fin 6) with
      | none =>
        -- the conversion of password.length throws
        ⟨⟨500, .obj [("error", .str "Server error during registration")]⟩, db, sess, []⟩
      | some true =>
        ⟨⟨400, .obj [("error", .str "Password must be at least 6 characters")]⟩, db, sess, []⟩
      | some false =>
        let q1 := Effect.query "SELECT id FROM users WHERE email = ?"
        if ext.dbFails 0 then
          ⟨⟨500, .obj [("error", .str "Server error during registration")]⟩, db, sess, [q1]⟩
        else
          let existing := db.users.filter (fun u => u.email == bindText ext email)
          if existing.length > 0 then
            ⟨⟨400, .obj [("error", .str "Email already registered")]⟩, db, sess, [q1]⟩
          else
            match ext.hash password with
            | none =>
              ⟨⟨500, .obj [("error", .str "Server error during registration")]⟩, db, sess,
                [q1]⟩
            | some hashedPassword =>
              let q2 :=
                Effect.query "INSERT INTO users (name, email, password) VALUES (?, ?, ?)"
              if ext.dbFails 1 then
                ⟨⟨500, .obj [("error", .str "Server error during registration")]⟩, db, sess,
                  [q1, q2]⟩
              else
                let insertId := nextId (db.users.map (fun u => u.id))
                let row : UserRow :=
                  ⟨insertId, bindText ext username, bindText ext email, hashedPassword⟩
                if ext.insertIdAsNumber then
                  ⟨⟨200, .obj [("success", .bool true),
                      ("message", .str "Account created successfully"),
                      ("user", .obj [("id", .num (JSNum.ofNat insertId)), ("name", username),
                        ("email", email)])]⟩,
                    { db with users := db.users ++ [row] },
                    ⟨some insertId, username, email⟩, [q1, q2]⟩
                else
                  -- res.json throws on the BigInt: TypeError, caught below
                  ⟨⟨500, .obj [("error", .str "Server error during registration")]⟩,
                    { db with users := db.users ++ [row] }, sess, [q1, q2]⟩

/-- The rows `SELECT * FROM users WHERE email = ? OR name = ?` returns for a
submitted username. -/
def usersMatching (ext : Ext) (db : Db) (username : JSVal) : List UserRow :=
  db.users.filter (fun u => u.email == bindText ext username || u.name == bindText ext username)

/-- The handler `POST /api/auth/login`. -/
def login (ext : Ext) (db : Db) (sess : Session) (body : JSVal) : Result :=
  -- const { username, password } = req.body
  if body.isNullish then
    ⟨⟨500, .obj [("error", .str "Server error during login")]⟩, db, sess, []⟩
  else
    let username := body.prop "username"
    let password := body.prop "password"
    if !username.truthy || !password.truthy then
      ⟨⟨400, .obj [("error", .str "Username and password are required")]⟩, db, sess, []⟩
    else
      let q1 := Effect.query "SELECT * FROM users WHERE email = ? OR name = ?"
      if ext.dbFails 0 then
        ⟨⟨500, .obj [("error", .str "Server error during login")]⟩, db, sess, [q1]⟩
      else
        let users := usersMatching ext db username
        match users with
        | [] => ⟨⟨401, .obj [("error", .str "Invalid credentials")]⟩, db, sess, [q1]⟩
        | user :: _ =>
          match ext.compare password user.password with
          | none => ⟨⟨500, .obj [("error", .str "Server error during login")]⟩, db, sess, [q1]⟩
          | some isValid =>
            if !isValid then
              ⟨⟨401, .obj [("error", .str "Invalid credentials")]⟩, db, sess, [q1]⟩
            else
              ⟨⟨200, .obj [("success", .bool true), ("message", .str "Login successful"),
                  ("user", .obj [("id", .num (JSNum.ofNat user.id)), ("name", .str user.name),
                    ("email", .str user.email)])]⟩,
                db, ⟨some user.id, .str user.name, .str user.email⟩, [q1]⟩

/-- The handler `POST /api/auth/logout`: `req.session.destroy` removes the
session from the store unless the store reports an error. -/
def logout (ext : Ext) (db : Db) (sess : Session) : Result :=
  if ext.destroyErr then
    ⟨⟨500, .obj [("error", .str "Logout failed")]⟩, db, sess, []⟩
  else
    ⟨⟨200, .obj [("success", .bool true), ("message", .str "Logged out successfully")]⟩,
      db, Session.empty, []⟩

/-- The handler `GET /api/auth/status`. -/
def status (db : Db) (sess : Session) : Result :=
  if sess.hasUser then
    ⟨⟨200, .obj [("authenticated", .bool true),
        ("user", .obj [("id", sess.userIdVal), ("name", sess.userName),
          ("email", sess.userEmail)])]⟩, db, sess, []⟩
  else
    ⟨⟨200, .obj [("authenticated", .bool false)]⟩, db, sess, []⟩

/-! ## routes/moods.js -/

/-- The value bound for `notes || null`: NULL, or the text of the value. -/
def bindNullable (ext : Ext) (v : JSVal) : Option String :=
  if v.truthy then some (bindText ext v) else none

/-- The handler `POST /api/moods`. -/
def postMoods (ext : Ext) (db : Db) (sess : Session) (body : JSVal) : Result :=
  -- const user_id = req.session.userId; if (!user_id)
  if !sess.hasUser then
    ⟨⟨401, .obj [("success", .bool false),
      ("error", .str "Authentication required. Please log in.")]⟩, db, sess, []⟩
  else if body.isNullish then
    ⟨⟨500, .obj [("success", .bool false),
      ("error", .str "Internal server error. Could not log mood.")]⟩, db, sess, []⟩
  else
    let user_id := sess.userId.getD 0
    let mood_level := body.prop "mood_level"
    let notes := body.prop "notes"
    if !mood_level.truthy then
      ⟨⟨400, .obj [("success", .bool false),
        ("error", .str "Missing required field. Please provide mood_level.")]⟩, db, sess, []⟩
    else if mood_level.typeOf != "number" || mood_level.asNumber.lt (.fin 1)
        || mood_level.asNumber.gt (.fin 5) then
      ⟨⟨400, .obj [("success", .bool false),
        ("error", .str "Invalid mood_level. Must be a number between 1 and 5.")]⟩, db, sess, []⟩
    else
      let q1 := Effect.query "INSERT INTO moods (user_id, mood_level, notes) VALUES (?, ?, ?)"
      if ext.dbFails 0 then
        ⟨⟨500, .obj [("success", .bool false),
          ("error", .str "Internal server error. Could not log mood.")]⟩, db, sess, [q1]⟩
      else
        let insertId := nextId (db.moods.map (fun m => m.id))
        let row : MoodRow :=
          ⟨insertId, user_id, mood_level.asNumber, bindNullable ext notes, ext.now⟩
        let db1 : Db := { db with moods := db.moods ++ [row] }
        let q2 := Effect.query "SELECT * FROM moods WHERE id = ?"
        if ext.dbFails 1 then
          ⟨⟨500, .obj [("success", .bool false),
            ("error", .str "Internal server error. Could not log mood.")]⟩, db1, sess, [q1, q2]⟩
        else
          let createdMoods := db1.moods.filter (fun m => m.id == insertId)
          let createdMood := (createdMoods.head?.map MoodRow.toJS).getD .undefined
          ⟨⟨201, .obj [("success", .bool true), ("message", .str "Mood logged successfully."),
            ("mood", createdMood)]⟩, db1, sess, [q1, q2]⟩

/-- The handler `GET /api/moods`. -/
def getMoods (ext : Ext) (db : Db) (sess : Session) : Result :=
  if !sess.hasUser then
    ⟨⟨401, .obj [("success", .bool false),
      ("error", .str "Authentication required. Please log in.")]⟩, db, sess, []⟩
  else
    let user_id := sess.userId.getD 0
    let q1 := Effect.query "SELECT * FROM moods WHERE user_id = ? ORDER BY created_at DESC"
    if ext.dbFails 0 then
      ⟨⟨500, .obj [("success", .bool false),
        ("error", .str "Internal server error. Could not fetch moods.")]⟩, db, sess, [q1]⟩
    else
      let moods := orderByCreatedDesc ext.tie MoodRow.created_at MoodRow.id
        (db.moods.filter (fun m => m.user_id == user_id))
      ⟨⟨200, .obj [("success", .bool true), ("count", .num (JSNum.ofNat moods.length)),
        ("moods", .arr (moods.map MoodRow.toJS))]⟩, db, sess, [q1]⟩

/-! ## routes/messages.js -/

/-- The handler `POST /api/messages`. -/
def postMessages (ext : Ext) (db : Db) (sess : Session) (body : JSVal) : Result :=
  -- const user_id = req.session.userId || null
  let user_id : Option Nat := if sess.hasUser then sess.userId else none
  if body.isNullish then
    ⟨⟨500, .obj [("success", .bool false),
      ("error", .str "Internal server error. Could not store message.")]⟩, db, sess, []⟩
  else
    let message := body.prop "message"
    let response := body.prop "response"
    if !message.truthy || !response.truthy then
      ⟨⟨400, .obj [("success", .bool false),
        ("error", .str "Missing required fields. Please provide message and response.")]⟩,
        db, sess, []⟩
    else if message.typeOf != "string" || response.typeOf != "string" then
      ⟨⟨400, .obj [("success", .bool false),
        ("error", .str "Message and response must be strings.")]⟩, db, sess, []⟩
    else if JSVal.jsLength (JSVal.jsTrim message.asString) == 0
        || JSVal.jsLength (JSVal.jsTrim response.asString) == 0 then
      ⟨⟨400, .obj [("success", .bool false),
        ("error", .str "Message and response cannot be empty.")]⟩, db, sess, []⟩
    else
      let q1 := Effect.query "INSERT INTO messages (user_id, message, response) VALUES (?, ?, ?)"
      if ext.dbFails 0 then
        ⟨⟨500, .obj [("success", .bool false),
          ("error", .str "Internal server error. Could not store message.")]⟩, db, sess, [q1]⟩
      else
        let insertId := nextId (db.messages.map (fun m => m.id))
        let row : MessageRow :=
          ⟨insertId, user_id, bindText ext message, bindText ext response, ext.now⟩
        let db1 : Db := { db with messages := db.messages ++ [row] }
        let q2 := Effect.query "SELECT * FROM messages WHERE id = ?"
        if ext.dbFails 1 then
          ⟨⟨500, .obj [("success", .bool false),
            ("error", .str "Internal server error. Could not store message.")]⟩,
            db1, sess, [q1, q2]⟩
        else
          let createdMessages := db1.messages.filter (fun m => m.id == insertId)
          let createdMessage := (createdMessages.head?.map MessageRow.toJS).getD .undefined
          ⟨⟨201, .obj [("success", .bool true), ("message", .str "Message stored successfully."),
            ("data", createdMessage)]⟩, db1, sess, [q1, q2]⟩

/-- The handler `GET /api/messages`. -/
def getMessages (ext : Ext) (db : Db) (sess : Session) : Result :=
  if !sess.hasUser then
    ⟨⟨401, .obj [("success", .bool false),
      ("error", .str "Authentication required. Please log in.")]⟩, db, sess, []⟩
  else
    let user_id := sess.userId.getD 0
    let q1 := Effect.query "SELECT * FROM messages WHERE user_id = ? ORDER BY created_at DESC"
    if ext.dbFails 0 then
      ⟨⟨500, .obj [("success", .bool false),
        ("error", .str "Internal server error. Could not fetch messages.")]⟩, db, sess, [q1]⟩
    else
      let messages := orderByCreatedDesc ext.tie MessageRow.created_at MessageRow.id
        (db.messages.filter (fun m => m.user_id == some user_id))
      ⟨⟨200, .obj [("success", .bool true), ("count", .num (JSNum.ofNat messages.length)),
        ("messages", .arr (messages.map MessageRow.toJS))]⟩, db, sess, [q1]⟩

/-! ## routes/resources.js -/

/-- The handler `GET /api/resources`; `query` is `req.query`. -/
def getResources (ext : Ext) (db : Db) (sess : Session) (query : JSVal) : Result :=
  if query.isNullish then
    ⟨⟨500, .obj [("success", .bool false),
      ("error", .str "Internal server error. Could not fetch resources.")]⟩, db, sess, []⟩
  else
    let category := query.prop "category"
    let q1 := Effect.query (if category.truthy
      then "SELECT * FROM resources WHERE category = ? ORDER BY created_at DESC"
      else "SELECT * FROM resources ORDER BY created_at DESC")
    if ext.dbFails 0 then
      ⟨⟨500, .obj [("success", .bool false),
        ("error", .str "Internal server error. Could not fetch resources.")]⟩, db, sess, [q1]⟩
    else
      let selected := if category.truthy
        then db.resources.filter (fun r => r.category == bindText ext category)
        else db.resources
      let resources := orderByCreatedDesc ext.tie ResourceRow.created_at ResourceRow.id selected
      ⟨⟨200, .obj [("success", .bool true), ("count", .num (JSNum.ofNat resources.length)),
        ("resources", .arr (resources.map ResourceRow.toJS))]⟩, db, sess, [q1]⟩

/-! ## routes/ai.js -/

/-- The constant `SYSTEM_PROMPT`. -/
def SYSTEM_PROMPT : String :=
  "You are a calm, empathetic mental-health support assistant named Calmora. \n" ++
  "- Speak softly, be understanding, and supportive\n" ++
  "- Never give medical advice or diagnose conditions\n" ++
  "- Always encourage reaching out to real people or crisis lines if the user sounds distressed\n" ++
  "- Be warm, non-judgmental, and helpful\n" ++
  "- Focus on active listening, validation, and providing helpful resources\n" ++
  "- Keep responses concise but meaningful (2-4 sentences when possible)\n" ++
  "- If someone mentions suicide, self-harm, or immediate crisis, strongly encourage " ++
  "contacting 988 (Suicide Prevention Lifeline) or 911 immediately"

/-- The `catch` block of `POST /api/chat`, for an error with the given
`response`, `request` and `code`. -/
def chatCatch (error : AxiosError) : Response :=
  match error.response with
  | some (statusCode, data) =>
    let errorMessage := (((data.optProp "error").optProp "message").or
      (data.optProp "error")).or (.str "AI service error")
    ⟨if statusCode ≥ 400 && statusCode < 500 then statusCode else 500,
      .obj [("success", .bool false), ("error", errorMessage)]⟩
  | none =>
    if error.request then
      ⟨503, .obj [("success", .bool false),
        ("error", .str "AI service is temporarily unavailable. Please try again later.")]⟩
    else if error.code == some "ECONNABORTED" then
      ⟨504, .obj [("success", .bool false), ("error", .str
        "Request timeout. The AI service took too long to respond. Please try again.")]⟩
    else
      ⟨500, .obj [("success", .bool false),
        ("error", .str "An unexpected error occurred. Please try again.")]⟩

/-- A `TypeError` thrown inside the `try` block: an error without `response`,
`request` or `code`. -/
def typeError : AxiosError := ⟨none, false, none⟩

/-- The handler `POST /api/chat`. -/
def postChat (cfg : Config) (ext : Ext) (db : Db) (sess : Session) (body : JSVal) : Result :=
  if body.isNullish then
    ⟨chatCatch typeError, db, sess, []⟩
  else
    let message := body.prop "message"
    if !message.truthy || message.typeOf != "string"
        || JSVal.jsLength (JSVal.jsTrim message.asString) == 0 then
      ⟨⟨400, .obj [("error", .str "Message is required")]⟩, db, sess, []⟩
    else if !envSet cfg.OPENROUTER_API_KEY then
      ⟨⟨500, .obj [("error", .str "AI service not configured")]⟩, db, sess, []⟩
    else
      let call : ChatCall :=
        { url := "https://openrouter.ai/api/v1/chat/completions"
          model := "openai/gpt-3.5-turbo"
          system := SYSTEM_PROMPT
          user := JSVal.jsTrim message.asString
          temperature := 7 / 10
          maxTokens := 800
          authorization := "Bearer " ++ cfg.OPENROUTER_API_KEY.getD ""
          referer := (envOr cfg.FRONTEND_URL (some "http://localhost:5500")).getD ""
          timeoutMs := 30000 }
      match ext.axiosPost call with
      | .error error => ⟨chatCatch error, db, sess, [.upstream call]⟩
      | .ok data =>
        -- openRouterResponse.data.choices[0]?.message?.content || fallback
        if data.isNullish then
          ⟨chatCatch typeError, db, sess, [.upstream call]⟩
        else
          let choices := data.prop "choices"
          if choices.isNullish then
            ⟨chatCatch typeError, db, sess, [.upstream call]⟩
          else
            let aiReply := (((choices.index 0).optProp "message").optProp "content").or
              (.str "I apologize, but I could not generate a response. Please try again.")
            ⟨⟨200, .obj [("success", .bool true), ("reply", aiReply)]⟩, db, sess,
              [.upstream call]⟩

/-- The request `POST /api/chat` sends upstream for a message that passed
validation: the call built in `postChat`. -/
def chatCall (cfg : Config) (message : String) : ChatCall :=
  { url := "https://openrouter.ai/api/v1/chat/completions"
    model := "openai/gpt-3.5-turbo"
    system := SYSTEM_PROMPT
    user := JSVal.jsTrim message
    temperature := 7 / 10
    maxTokens := 800
    authorization := "Bearer " ++ cfg.OPENROUTER_API_KEY.getD ""
    referer := (envOr cfg.FRONTEND_URL (some "http://localhost:5500")).getD ""
    timeoutMs := 30000 }

/-! ## routes/contact.js -/

/-- The handler `POST /api/contact`. -/
def postContact (cfg : Config) (ext : Ext) (db : Db) (sess : Session) (body : JSVal) : Result :=
  if body.isNullish then
    ⟨⟨500, .obj [("error", .str "Server error sending message")]⟩, db, sess, []⟩
  else
    let name := body.prop "name"
    let email := body.prop "email"
    let subject := body.prop "subject"
    let message := body.prop "message"
    if !name.truthy || !email.truthy || !subject.truthy || !message.truthy then
      ⟨⟨400, .obj [("error", .str "All fields are required")]⟩, db, sess, []⟩
    else
      -- the template literals convert subject, name and email to strings;
      -- message.replace is a function only when message is a string
      match toStr ext subject, toStr ext name, toStr ext email, message with
      | some subjectText, some nameText, some emailText, .str text =>
        let mailOptions : MailOptions :=
          { sender := cfg.SMTP_USER
            recipient := envOr cfg.ADMIN_EMAIL cfg.SMTP_USER
            subject := "Calmora Contact: " ++ subjectText
            html := "\n        <h2>New Contact Form Submission</h2>" ++
              "\n        <p><strong>Name:</strong> " ++ nameText ++ "</p>" ++
              "\n        <p><strong>Email:</strong> " ++ emailText ++ "</p>" ++
              "\n        <p><strong>Subject:</strong> " ++ subjectText ++ "</p>" ++
              "\n        <p><strong>Message:</strong></p>" ++
              "\n        <p>" ++ text.replace "\n" "<br>" ++ "</p>\n      " }
        if envSet cfg.SMTP_USER && envSet cfg.SMTP_PASS then
          if ext.sendMailFails mailOptions then
            ⟨⟨500, .obj [("error", .str "Server error sending message")]⟩, db, sess,
              [.mail mailOptions]⟩
          else
            ⟨⟨200, .obj [("success", .bool true), ("message",
              .str "Thank you for your message! We will get back to you soon.")]⟩, db, sess,
              [.mail mailOptions]⟩
        else
          ⟨⟨200, .obj [("success", .bool true), ("message",
            .str "Thank you for your message! We will get back to you soon.")]⟩, db, sess, []⟩
      | _, _, _, _ =>
        -- a TypeError thrown while the mail is built
        ⟨⟨500, .obj [("error", .str "Server error sending message")]⟩, db, sess, []⟩

/-! ## server.js -/

/-- The handler `GET /api/health`. -/
def health (db : Db) (sess : Session) : Result :=
  ⟨⟨200, .obj [("success", .bool true), ("status", .str "ok"),
    ("message", .str "Calmora API is running")]⟩, db, sess, []⟩

/-- The routes mounted in `server.js`. -/
inductive Route where
  | signup | login | logout | status
  | postMoods | getMoods
  | postMessages | getMessages
  | getResources
  | postChat
  | postContact
  | health
  deriving DecidableEq

/-- A request: the route it matches, `req.body` and `req.query`. -/
structure Request where
  route : Route
  body : JSVal
  query : JSVal

/-- The API: the handler of the matched route run on the request. -/
def handle (cfg : Config) (ext : Ext) (db : Db) (sess : Session) (req : Request) : Result :=
  match req.route with
  | .signup => signup ext db sess req.body
  | .login => login ext db sess req.body
  | .logout => logout ext db sess
  | .status => status db sess
  | .postMoods => postMoods ext db sess req.body
  | .getMoods => getMoods ext db sess
  | .postMessages => postMessages ext db sess req.body
  | .getMessages => getMessages ext db sess
  | .getResources => getResources ext db sess req.query
  | .postChat => postChat cfg ext db sess req.body
  | .postContact => postContact cfg ext db sess req.body
  | .health => health db sess

/-! ## scripts/seed-resources.js -/

/-- An entry of `initialResources`. -/
structure Resource where
  title : String
  description : String
  link : String
  category : String
  deriving DecidableEq

/-- The constant `initialResources`. -/
def initialResources : List Resource :=
  [⟨"Understanding Mental Health",
      "Learn about different mental health conditions, their symptoms, and treatment options.",
      "https://www.nimh.nih.gov/health/topics", "education"⟩,
    ⟨"Coping Strategies for Stress",
      "Discover effective techniques for managing stress, anxiety, and other mental health " ++
        "challenges.",
      "https://www.apa.org/topics/stress", "coping"⟩,
    ⟨"Self-Care Guide",
      "Practical tips and guides for maintaining your mental well-being through self-care " ++
        "practices.",
      "https://www.mind.org.uk/information-support/tips-for-everyday-living/self-care/",
      "self-care"⟩,
    ⟨"Crisis Resources",
      "Immediate help and support resources for mental health crises and emergencies.",
      "https://988lifeline.org/", "crisis"⟩,
    ⟨"10 Ways to Manage Anxiety",
      "Practical techniques you can use daily to reduce anxiety and improve your mental " ++
        "well-being.",
      "https://www.healthline.com/health/mental-health/how-to-cope-with-anxiety", "anxiety"⟩,
    ⟨"The Importance of Sleep for Mental Health",
      "Learn how quality sleep impacts your mental health and discover tips for better sleep " ++
        "hygiene.",
      "https://www.sleepfoundation.org/mental-health", "wellness"⟩,
    ⟨"Building Resilience",
      "Strategies for developing emotional resilience and bouncing back from life\x27s " ++
        "challenges.",
      "https://www.apa.org/topics/resilience", "coping"⟩,
    ⟨"Mindfulness Meditation Guide",
      "Learn the basics of mindfulness meditation and how it can improve your mental " ++
        "well-being.",
      "https://www.mindful.org/how-to-meditate/", "mindfulness"⟩,
    ⟨"Understanding Depression",
      "Comprehensive guide to understanding depression, its symptoms, and available treatment " ++
        "options.",
      "https://www.nimh.nih.gov/health/topics/depression", "education"⟩]

/-- The loop `for (const resource of initialResources)` from call number `n`
on, over the rows of `resources` so far: each INSERT appends a row; an INSERT
that throws leaves the loop (the error is caught and logged). -/
def seedInsertAll (ext : Ext) : Nat → List Resource → List ResourceRow →
    List ResourceRow × List Effect
  | _, [], rows => (rows, [])
  | n, resource :: rest, rows =>
    let q := Effect.query
      "INSERT INTO resources (title, description, link, category) VALUES (?, ?, ?, ?)"
    if ext.dbFails n then
      (rows, [q])
    else
      let row : ResourceRow := ⟨nextId (rows.map (fun r => r.id)), resource.title,
        resource.description, resource.link, resource.category, ext.now⟩
      ((seedInsertAll ext (n + 1) rest (rows ++ [row])).1,
        q :: (seedInsertAll ext (n + 1) rest (rows ++ [row])).2)

/-- The function `seedResources`: the tables it leaves and what it issued.
Its calls are numbered for `ext.dbFails`: 0 is `pool.getConnection()`, 1 is the
COUNT query, 2 to 10 are the INSERTs.  Every error is caught and logged. -/
def seedResources (ext : Ext) (db : Db) : Db × List Effect :=
  if ext.dbFails 0 then
    (db, [])
  else
    let q := Effect.query "SELECT COUNT(*) as count FROM resources"
    if ext.dbFails 1 then
      (db, [q])
    else if db.resources.length > 0 then
      -- existing.count > 0: resources already exist, skipping seed
      (db, [q])
    else
      ({ db with resources := (seedInsertAll ext 2 initialResources db.resources).1 },
        q :: (seedInsertAll ext 2 initialResources db.resources).2)

/-! ## server.js: the middleware around the routes -/

/-- The arguments the `origin` function of the CORS middleware passes to its
callback: the error and whether the origin is allowed. -/
structure CorsDecision where
  error : JSVal
  allow : Bool

/-- The `origin` function of the CORS middleware; `origin` is the Origin
header of the request, `none` when the request has none. -/
def corsOrigin (cfg : Config) (origin : Option String) : CorsDecision :=
  -- if (!origin) return callback(null, true)
  if !envSet origin then
    ⟨.null, true⟩
  else
    let o := origin.getD ""
    if o.startsWith "http://localhost" || o.startsWith "http://127.0.0.1"
        || o.startsWith "file://" then
      ⟨.null, true⟩
    else
      let allowedOrigins := [(envOr cfg.FRONTEND_URL (some "http://localhost:5500")).getD "",
        "http://localhost:3001", "http://localhost:5500", "http://localhost:5501"]
      if allowedOrigins.contains o then
        ⟨.null, true⟩
      else
        -- allow all for development
        ⟨.null, true⟩

/-- The arguments of `res.status(...)` and `.json(...)` in the error-handling
middleware. -/
structure RawResponse where
  status : JSVal
  body : JSVal

/-- The error-handling middleware of `server.js`, for the error `err` that
reached it.  Express hands an error to this middleware only when it is truthy,
so `err` is never null or undefined and reading its properties cannot throw. -/
def errorMiddleware (err : JSVal) : RawResponse :=
  ⟨(err.prop "status").or (.num (.fin 500)),
    .obj [("success", .bool false),
      ("error", (err.prop "message").or (.str "Internal server error"))]⟩

/-- The 404 handler of `server.js`, for a request (method and path) that no
route matched. -/
def notFoundHandler (_method _path : String) : Response :=
  ⟨404, .obj [("success", .bool false), ("error", .str "Route not found")]⟩

/-! ## config/db.js -/

/-- The pool of `db.js` as `query` sees it: the number of connections that
are checked out. -/
structure Pool where
  checkedOut : Nat
  deriving DecidableEq

/-- What a call does to the pool, in order. -/
inductive PoolEvent where
  | acquired
  | released
  deriving DecidableEq

/-- The pool after `pool.getConnection()` resolved. -/
def Pool.getConnection (pool : Pool) : Pool := ⟨pool.checkedOut + 1⟩

/-- The pool after `conn.release()`. -/
def Pool.release (pool : Pool) : Pool := ⟨pool.checkedOut - 1⟩

/-- The outcome of `query`: what it returns or rethrows, the pool it leaves
and what it did to the pool. -/
structure QueryResult (ε ρ : Type) where
  outcome : Except ε ρ
  pool : Pool
  events : List PoolEvent

/-- The function `query(sql, params)` of `db.js`.  `acquire` is the error
`pool.getConnection()` rejects with, if it does; `run` is the outcome of
`conn.query(sql, params)` on the connection.  Errors are the error objects of
the connector. -/
def query {ε ρ : Type} (acquire : Option ε) (run : Except ε ρ) (pool : Pool) :
    QueryResult ε ρ :=
  match acquire with
  | some error =>
    -- conn is still undefined: catch rethrows, finally releases nothing
    ⟨.error error, pool, []⟩
  | none =>
    let pool1 := pool.getConnection
    match run with
    | .ok result => ⟨.ok result, pool1.release, [.acquired, .released]⟩
    | .error error => ⟨.error error, pool1.release, [.acquired, .released]⟩

/-! ## api.js and public/permissions.js: the base URL -/

/-- The fields of `window.location` the client reads. -/
structure Location where
  protocol : String
  hostname : String
  port : String
  deriving DecidableEq

/-- The function `getApiBaseUrl` of `api.js`. -/
def Api.getApiBaseUrl (loc : Location) : String :=
  if loc.protocol == "file:" then
    "http://localhost:3000"
  else if loc.port == "5500" || loc.port == "5501" || loc.hostname == "127.0.0.1" then
    "http://localhost:3000"
  else
    loc.protocol ++ "//" ++ loc.hostname ++ (if loc.port != "" then ":" ++ loc.port else "")

/-- The function `getApiBaseUrl` inside `requestNetworkAccess` of
`public/permissions.js`. -/
def Permissions.getApiBaseUrl (loc : Location) : String :=
  if loc.protocol == "file:" then
    "http://localhost:3001"
  else if loc.port == "5500" || loc.port == "5501" || loc.hostname == "127.0.0.1" then
    "http://localhost:3001"
  else
    loc.protocol ++ "//" ++ loc.hostname ++ (if loc.port != "" then ":" ++ loc.port else "")

/-! ## api.js, auth.js and public/user-info.js: the client -/

/-- The method `s.includes(sub)`. -/
def jsIncludes (s sub : String) : Bool :=
  s.toList.tails.any (fun t => sub.toList.isPrefixOf t)

/-- What the browser gives the client scripts. -/
structure BrowserEnv where
  /-- The function `JSON.stringify`. -/
  stringify : JSVal → String
  /-- The function `JSON.parse`; `none` when it throws. -/
  parse : String → Option JSVal
  /-- The engine's `ToString` on values that are not strings; `none` when the
  conversion throws a `TypeError`. -/
  toStr : JSVal → Option String
  /-- The message of a `TypeError` the engine throws inside a script. -/
  typeErrorMessage : String
  /-- Whether `localStorage.setItem` throws. -/
  setItemFails : Bool

/-- The request `apiRequest` hands to `fetch`; the credentials mode and the
two default headers are the same in every call of the repository. -/
structure FetchRequest where
  url : String
  method : Option String
  body : Option String
  deriving DecidableEq

/-- The response `fetch` resolves to, as `apiRequest` reads it: `json` is the
value `response.json()` resolves to, or the name and message of the error it
rejects with. -/
structure FetchResponse where
  status : Nat
  statusText : String
  contentType : Option String
  text : String
  json : Except (String × String) JSVal

/-- The outcome of `fetch`: it rejects with an error of the given name and
message, or it resolves. -/
inductive FetchOutcome where
  | rejected (name message : String)
  | resolved (response : FetchResponse)

/-- An error `apiRequest` throws: its message, its `type`, `status` and `data`
when set, and whether it wraps an `originalError`. -/
structure ApiError where
  message : String
  type : Option String
  status : Option Nat
  data : Option JSVal
  wrapsOriginal : Bool

/-- The `catch` block of `apiRequest`, for a caught error with the given
name, message, `status` and `data`. -/
def apiCatch (name message : String) (status : Option Nat) (data : Option JSVal) : ApiError :=
  if name == "TypeError" && jsIncludes message "fetch" then
    ⟨"Network error: Unable to connect to server. Please check your connection.",
      some "network", none, none, false⟩
  else if (match status with | some n => n != 0 | none => false)
      || (match data with | some d => d.truthy | none => false) then
    ⟨message, none, status, data, false⟩
  else
    ⟨if message != "" then message else "An unexpected error occurred", none, none, none, true⟩

/-- Lines 79 to 84 of `apiRequest`: the value returned for the parsed body of
a successful response; `none` when reading `data.success` throws. -/
def normaliseBody (data : JSVal) : Option JSVal :=
  if data.isNullish then
    none
  else if !(data.prop "success").isUndefined || !(data.prop "reply").isUndefined then
    some data
  else
    some (.obj [("success", .bool true), ("data", data)])

/-- The function `apiRequest(endpoint, options)` of `api.js`, for callers that
pass a method and a body at most; `fetch` is what the browser answers. -/
def apiRequest (env : BrowserEnv) (loc : Location) (fetch : FetchRequest → FetchOutcome)
    (endpoint : String) (method body : Option String) : Except ApiError JSVal :=
  let url := Api.getApiBaseUrl loc ++ endpoint
  match fetch ⟨url, method, body⟩ with
  | .rejected name message => .error (apiCatch name message none none)
  | .resolved response =>
    let httpText := "HTTP " ++ toString response.status ++ ": " ++ response.statusText
    if !(match response.contentType with
        | some contentType => jsIncludes contentType "application/json"
        | none => false) then
      -- throw new Error(text || httpText)
      .error (apiCatch "Error" (if response.text != "" then response.text else httpText)
        none none)
    else
      match response.json with
      | .error (name, message) => .error (apiCatch name message none none)
      | .ok data =>
        if !(decide (200 ≤ response.status) && decide (response.status ≤ 299)) then
          if data.isNullish then
            .error (apiCatch "TypeError" env.typeErrorMessage none none)
          else
            let shown := ((data.prop "message").or (data.prop "error")).or (.str httpText)
            match (match shown with | .str text => some text | v => env.toStr v) with
            | none => .error (apiCatch "TypeError" env.typeErrorMessage none none)
            | some message =>
              .error (apiCatch "Error" message (some response.status) (some data))
        else
          match normaliseBody data with
          | none => .error (apiCatch "TypeError" env.typeErrorMessage none none)
          | some value => .ok value

/-- The function `auth.getStatus` of `api.js`. -/
def Api.getStatus (env : BrowserEnv) (loc : Location) (fetch : FetchRequest → FetchOutcome) :
    Except ApiError JSVal :=
  apiRequest env loc fetch "/api/auth/status" none none

/-- The content of `localStorage`: keys and values. -/
abbrev Storage := List (String × String)

/-- The method `localStorage.setItem`. -/
def Storage.setItem (storage : Storage) (key value : String) : Storage :=
  (key, value) :: storage.filter (fun kv => kv.1 != key)

/-- The function `getCurrentUser` of `auth.js`. -/
def getCurrentUser (env : BrowserEnv) (storage : Storage) : JSVal :=
  match storage.lookup "user" with
  | some userStr =>
    if userStr != "" then
      match env.parse userStr with
      | some user => user
      | none => .null
    else
      .null
  | none => .null

/-- The body of the function `checkAuthStatus` of `public/user-info.js`: what
a call returns and the `localStorage` it leaves, were the script to run.
`hasApi` and `hasAuth` say whether `window.API` (with `auth`) and
`window.Auth` are there; `getStatus` is the outcome of
`window.API.auth.getStatus()`. -/
def checkAuthStatusBody (env : BrowserEnv) (hasApi hasAuth : Bool)
    (getStatus : Except ApiError JSVal) (storage : Storage) : JSVal × Storage :=
  if !hasApi then
    (.null, storage)
  else
    match getStatus with
    | .error _ => (if hasAuth then getCurrentUser env storage else .null, storage)
    | .ok result =>
      if result.truthy && (result.prop "authenticated").truthy
          && (result.prop "user").truthy then
        if env.setItemFails then
          (if hasAuth then getCurrentUser env storage else .null, storage)
        else
          (result.prop "user", storage.setItem "user" (env.stringify (result.prop "user")))
      else
        (.null, storage)

/-- The names that the block of `if (user)` in `updateNavbar` of
`public/user-info.js` (lines 206 to 433) declares with `const` directly in
the block, in the order of the source (lines 216, 222, 235, 243, 277, 281,
289, 293, 294, 297, 330 and 345). -/
def updateNavbarBlockDeclarations : List String :=
  ["existingLogoutMenu", "logoutMenuLi", "userInfoContainer", "logoutMenuLink", "stats",
    "userInfoContainer", "dropdownWrapper", "userInfoBtn", "dropdown", "logoutBtn",
    "logoutLi", "navLogoutBtn"]

/-- The early error of a block: whether a name is declared twice among the
`const` and `let` declarations of one block.  The engine then rejects the
whole script with a `SyntaxError` before it runs any of it. -/
def declaredTwice : List String → Bool
  | [] => false
  | name :: rest => rest.contains name || declaredTwice rest

/-- The function `checkAuthStatus` as the page gets it from
`public/user-info.js`: `none` when the engine rejects the script, so that the
function is never defined (nor `window.UserInfo.checkStatus`); otherwise what
its body returns. -/
def checkAuthStatus (env : BrowserEnv) (hasApi hasAuth : Bool)
    (getStatus : Except ApiError JSVal) (storage : Storage) : Option (JSVal × Storage) :=
  if declaredTwice updateNavbarBlockDeclarations then
    none
  else
    some (checkAuthStatusBody env hasApi hasAuth getStatus storage)

/-! ## Sample inputs -/

/-- An environment in which nothing fails: bcrypt hashes a string to a
prefixed copy and compares accordingly. -/
def sampleExt : Ext where
  dbFails := fun _ => false
  sqlText := fun _ => ""
  now := 1000
  tie := fun a b => decide (a < b)
  toNumber := fun _ => some JSNum.nan
  toStr := fun _ => some ""
  hash := fun v => match v with
    | .str s => some ("$2a$10$" ++ s)
    | _ => none
  compare := fun v h => match v with
    | .str s => some (("$2a$10$" ++ s) == h)
    | _ => none
  destroyErr := false
  axiosPost := fun _ => .error ⟨none, true, none⟩
  sendMailFails := fun _ => false
  insertIdAsNumber := false

/-- A database with one user, ann. -/
def sampleDb : Db where
  users := [⟨1, "ann", "a@x.com", "$2a$10$secret1"⟩]
  moods := []
  messages := []
  resources := []

/-- The session ann gets by logging in. -/
def annSession : Session := ⟨some 1, .str "ann", .str "a@x.com"⟩

/-- A configuration with a provider credential and no mail credentials. -/
def sampleCfg : Config := ⟨some "sk-or-test", none, none, none, none⟩

/-- The environment `sampleExt` in which the upstream call ends in the
timeout of the HTTP client: an error with the request set, no response and
the code ECONNABORTED. -/
def timeoutExt : Ext :=
  { sampleExt with axiosPost := fun _ => .error ⟨none, true, some "ECONNABORTED"⟩ }

/-- The environment `sampleExt` in which the upstream answers 429 with an
error message. -/
def rateLimitedExt : Ext :=
  { sampleExt with
    axiosPost := fun _ => Except.error (AxiosError.mk
      (some (429, .obj [("error", .obj [("message", .str "Rate limit exceeded")])])) true
      none) }

/-- A database with two users, a mood of each, a message of each and an
anonymous message. -/
def twoUsersDb : Db where
  users := [⟨1, "ann", "a@x.com", "$2a$10$secret1"⟩, ⟨2, "bob", "b@x.com", "$2a$10$secret2"⟩]
  moods := [⟨1, 1, .fin 3, none, 1000⟩, ⟨2, 2, .fin 5, some "great", 1001⟩]
  messages := [⟨1, some 1, "hello", "hi", 1000⟩, ⟨2, some 2, "thanks", "welcome", 1001⟩,
    ⟨3, none, "anyone there", "yes", 1002⟩]
  resources := []

/-- The environment `sampleExt` in which the upstream answers 200 with a body
that has no `choices`. -/
def noChoicesExt : Ext :=
  { sampleExt with
    axiosPost := fun _ => Except.ok (.obj [("error", .obj [("message", .str "overloaded")])]) }

/-- The environment `sampleExt` in which the upstream answers 200 with an
empty list of choices. -/
def emptyChoicesExt : Ext :=
  { sampleExt with axiosPost := fun _ => Except.ok (.obj [("choices", .arr [])]) }

/-- A configuration with no variable set. -/
def emptyCfg : Config := ⟨none, none, none, none, none⟩

/-- A database with two users of the same name. -/
def sameNameDb : Db where
  users := [⟨1, "sam", "sam1@x.com", "$2a$10$first-pass"⟩,
    ⟨2, "sam", "sam2@x.com", "$2a$10$second-pass"⟩]
  moods := []
  messages := []
  resources := []

/-- A browser whose JSON functions are stand-ins. -/
def sampleBrowser : BrowserEnv where
  stringify := fun _ => "stored"
  parse := fun _ => none
  toStr := fun _ => some ""
  typeErrorMessage := "Cannot read properties of null"
  setItemFails := false

/-- A `fetch` that resolves to the JSON answer of the status handler for the
given session. -/
def statusFetch (sess : Session) : FetchRequest → FetchOutcome :=
  fun _ => .resolved ⟨200, "OK", some "application/json; charset=utf-8", "",
    .ok (status sampleDb sess).resp.body⟩

/-- The environment `sampleExt` with an engine that returns rows of equal
`created_at` with the larger id first. -/
def largerIdFirstExt : Ext := { sampleExt with tie := fun a b => decide (b < a) }

/-- A database in which ann has two moods and two messages logged in the same
second, and two resources seeded in the same second. -/
def sameSecondDb : Db where
  users := [⟨1, "ann", "a@x.com", "$2a$10$secret1"⟩]
  moods := [⟨1, 1, .fin 3, none, 1000⟩, ⟨2, 1, .fin 4, none, 1000⟩]
  messages := [⟨1, some 1, "hello", "hi", 1000⟩, ⟨2, some 1, "thanks", "welcome", 1000⟩]
  resources := [⟨1, "Self-Care Guide", "Practical tips", "https://www.mind.org.uk", "self-care",
      1000⟩,
    ⟨2, "Crisis Resources", "Immediate help", "https://988lifeline.org/", "crisis", 1000⟩]

/-! ## Lemmas on values -/

theorem JSVal.isNullish_of_prop_truthy (v : JSVal) (k : String)
    (h : (v.prop k).truthy = true) : v.isNullish = false := by
  cases v <;> simp_all [JSVal.prop, JSVal.truthy, JSVal.isNullish]

theorem jsLt_length_str (ext : Ext) (p : String) (n : Nat) :
    jsLt ext ((JSVal.str p).prop "length") (.fin (n : ℚ))
      = some (decide (JSVal.jsLength p < n)) := by
  simp [jsLt, JSVal.prop, toNumber, JSNum.ofNat, JSNum.lt]

theorem lt_nextId (ids : List Nat) : ∀ x ∈ ids, x < nextId ids := by
  induction ids with
  | nil => simp
  | cons y ys ih =>
    intro x hx
    simp only [nextId, List.foldr_cons] at ih ⊢
    rcases List.mem_cons.mp hx with rfl | hmem
    · omega
    · have := ih x hmem
      omega

theorem str_truthy_of_length (p : String) (n : Nat) (hlen : n + 1 ≤ JSVal.jsLength p) :
    (JSVal.str p).truthy = true := by
  have : p ≠ "" := by
    rintro rfl
    simp [JSVal.jsLength] at hlen
  simpa [JSVal.truthy] using this

theorem jsLt_length_six (ext : Ext) (p : String) :
    jsLt ext ((JSVal.str p).prop "length") (.fin 6)
      = some (decide (JSVal.jsLength p < 6)) := by
  have := jsLt_length_str ext p 6
  simpa only [Nat.cast_ofNat] using this

/-! ## C1 to C3: signup -/

/-- C1: a signup whose email is the email of an existing user row (username
present, password a string of length at least 6) is answered 400 "Email
already registered" as soon as the lookup statement returns (500 if the
statement itself fails); in both cases the tables and the session are
unchanged and the only statement issued is the lookup: no row is inserted. -/
theorem signup_duplicate_email (ext : Ext) (db : Db) (sess : Session) (body : JSVal)
    (e p : String)
    (hu : (body.prop "username").truthy = true)
    (he : body.prop "email" = .str e) (hne : (JSVal.str e).truthy = true)
    (hp : body.prop "password" = .str p) (hlen : 6 ≤ JSVal.jsLength p)
    (hdup : ∃ u ∈ db.users, u.email = e) :
    (ext.dbFails 0 = false →
        (signup ext db sess body).resp
          = ⟨400, .obj [("error", .str "Email already registered")]⟩)
      ∧ (ext.dbFails 0 = true → (signup ext db sess body).resp.status = 500)
      ∧ (signup ext db sess body).db = db
      ∧ (signup ext db sess body).session = sess
      ∧ (signup ext db sess body).trace = [.query "SELECT id FROM users WHERE email = ?"] := by
  have hnull : body.isNullish = false := JSVal.isNullish_of_prop_truthy body "username" hu
  have hpt : (JSVal.str p).truthy = true := str_truthy_of_length p 5 hlen
  have hlt : jsLt ext ((JSVal.str p).prop "length") (.fin 6) = some false := by
    rw [jsLt_length_six]; simpa using hlen
  obtain ⟨u, hmem, hue⟩ := hdup
  have hex : 0 < (db.users.filter (fun u => u.email == bindText ext (.str e))).length := by
    apply List.length_pos_of_mem (a := u)
    simp [List.mem_filter, hmem, hue, bindText]
  cases hdb : ext.dbFails 0 <;> simp [signup, hnull, hu, he, hne, hp, hpt, hlt, hdb, hex]

/-- C1 witness: a second signup with the email of ann. -/
theorem signup_duplicate_email_witness :
    (signup sampleExt sampleDb Session.empty
      (.obj [("username", .str "bob"), ("email", .str "a@x.com"),
        ("password", .str "secret2")])).resp
      = ⟨400, .obj [("error", .str "Email already registered")]⟩ :=
  (signup_duplicate_email sampleExt sampleDb Session.empty
    (.obj [("username", .str "bob"), ("email", .str "a@x.com"), ("password", .str "secret2")])
    "a@x.com" "secret2" (by decide) (by rfl) (by decide) (by rfl) (by decide)
    ⟨⟨1, "ann", "a@x.com", "$2a$10$secret1"⟩, by simp [sampleDb], rfl⟩).1 rfl

theorem signup_number_insertId (ext : Ext) (db : Db) (sess : Session) (body : JSVal)
    (p hashed : String)
    (hu : (body.prop "username").truthy = true)
    (he : (body.prop "email").truthy = true)
    (hp : body.prop "password" = .str p) (hlen : 6 ≤ JSVal.jsLength p)
    (hnew : ∀ u ∈ db.users, u.email ≠ bindText ext (body.prop "email"))
    (hdb0 : ext.dbFails 0 = false) (hhash : ext.hash (.str p) = some hashed)
    (hdb1 : ext.dbFails 1 = false) (hnum : ext.insertIdAsNumber = true) :
    (signup ext db sess body).resp = ⟨200, .obj [("success", .bool true),
        ("message", .str "Account created successfully"),
        ("user", .obj [("id", .num (JSNum.ofNat (nextId (db.users.map (fun u => u.id))))),
          ("name", body.prop "username"), ("email", body.prop "email")])]⟩
      ∧ ((signup ext db sess body).resp.body.prop "user").keys = ["id", "name", "email"]
      ∧ (signup ext db sess body).db.users = db.users ++
          [⟨nextId (db.users.map (fun u => u.id)), bindText ext (body.prop "username"),
            bindText ext (body.prop "email"), hashed⟩]
      ∧ (∀ u ∈ db.users, u.id ≠ nextId (db.users.map (fun u => u.id)))
      ∧ (signup ext db sess body).session =
          ⟨some (nextId (db.users.map (fun u => u.id))), body.prop "username",
            body.prop "email"⟩ := by
  have hnull : body.isNullish = false := JSVal.isNullish_of_prop_truthy body "username" hu
  have hpt : (JSVal.str p).truthy = true := str_truthy_of_length p 5 hlen
  have hlt : jsLt ext ((JSVal.str p).prop "length") (.fin 6) = some false := by
    rw [jsLt_length_six]; simpa using hlen
  have hex : db.users.filter (fun u => u.email == bindText ext (body.prop "email")) = [] := by
    simp only [List.filter_eq_nil_iff, beq_iff_eq]
    exact hnew
  have hfresh : ∀ u ∈ db.users, u.id ≠ nextId (db.users.map (fun u => u.id)) := by
    intro u hmem
    have := lt_nextId (db.users.map (fun u => u.id)) u.id (List.mem_map_of_mem _ hmem)
    omega
  have hres : signup ext db sess body = ⟨⟨200, .obj [("success", .bool true),
        ("message", .str "Account created successfully"),
        ("user", .obj [("id", .num (JSNum.ofNat (nextId (db.users.map (fun u => u.id))))),
          ("name", body.prop "username"), ("email", body.prop "email")])]⟩,
      { db with users := db.users ++
          [⟨nextId (db.users.map (fun u => u.id)), bindText ext (body.prop "username"),
            bindText ext (body.prop "email"), hashed⟩] },
      ⟨some (nextId (db.users.map (fun u => u.id))), body.prop "username", body.prop "email"⟩,
      [.query "SELECT id FROM users WHERE email = ?",
        .query "INSERT INTO users (name, email, password) VALUES (?, ?, ?)"]⟩ := by
    simp [signup, hnull, hu, he, hp, hpt, hlt, hdb0, hdb1, hex, hhash, hnum]
  rw [hres]
  exact ⟨rfl, rfl, rfl, hfresh, rfl⟩

theorem signup_bigint_insertId (ext : Ext) (db : Db) (sess : Session) (body : JSVal)
    (p hashed : String)
    (hu : (body.prop "username").truthy = true)
    (he : (body.prop "email").truthy = true)
    (hp : body.prop "password" = .str p) (hlen : 6 ≤ JSVal.jsLength p)
    (hnew : ∀ u ∈ db.users, u.email ≠ bindText ext (body.prop "email"))
    (hdb0 : ext.dbFails 0 = false) (hhash : ext.hash (.str p) = some hashed)
    (hdb1 : ext.dbFails 1 = false) (hbig : ext.insertIdAsNumber = false) :
    signup ext db sess body
      = ⟨⟨500, .obj [("error", .str "Server error during registration")]⟩,
        { db with users := db.users ++
          [⟨nextId (db.users.map (fun u => u.id)), bindText ext (body.prop "username"),
            bindText ext (body.prop "email"), hashed⟩] },
        sess,
        [.query "SELECT id FROM users WHERE email = ?",
          .query "INSERT INTO users (name, email, password) VALUES (?, ?, ?)"]⟩ := by
  have hnull : body.isNullish = false := JSVal.isNullish_of_prop_truthy body "username" hu
  have hpt : (JSVal.str p).truthy = true := str_truthy_of_length p 5 hlen
  have hlt : jsLt ext ((JSVal.str p).prop "length") (.fin 6) = some false := by
    rw [jsLt_length_six]; simpa using hlen
  have hex : db.users.filter (fun u => u.email == bindText ext (body.prop "email")) = [] := by
    simp only [List.filter_eq_nil_iff, beq_iff_eq]
    exact hnew
  simp [signup, hnull, hu, he, hp, hpt, hlt, hdb0, hdb1, hex, hhash, hbig]

/-- C2: the failing input evaluated.  bob signs up with a username, an email
that no user row has and a password of seven characters; both statements and
bcrypt return, and the connector returns `result.insertId` as a BigInt, its
default, since `config/db.js` sets no `insertIdAsNumber`.  The row of bob is
inserted, then `res.json` throws on the BigInt and the catch block answers
500 "Server error during registration": the answer is not 200, it carries no
user object, and the session is not established. -/
theorem signup_valid_not_answered_200 :
    (signup sampleExt sampleDb Session.empty
      (.obj [("username", .str "bob"), ("email", .str "b@x.com"),
        ("password", .str "secret2")])).resp
      = ⟨500, .obj [("error", .str "Server error during registration")]⟩
      ∧ (signup sampleExt sampleDb Session.empty
        (.obj [("username", .str "bob"), ("email", .str "b@x.com"),
          ("password", .str "secret2")])).resp.body.prop "user" = .undefined
      ∧ (signup sampleExt sampleDb Session.empty
        (.obj [("username", .str "bob"), ("email", .str "b@x.com"),
          ("password", .str "secret2")])).db.users
        = [⟨1, "ann", "a@x.com", "$2a$10$secret1"⟩, ⟨2, "bob", "b@x.com", "$2a$10$secret2"⟩]
      ∧ (signup sampleExt sampleDb Session.empty
        (.obj [("username", .str "bob"), ("email", .str "b@x.com"),
          ("password", .str "secret2")])).session = Session.empty
      ∧ (signup sampleExt sampleDb Session.empty
        (.obj [("username", .str "bob"), ("email", .str "b@x.com"),
          ("password", .str "secret2")])).trace
        = [.query "SELECT id FROM users WHERE email = ?",
          .query "INSERT INTO users (name, email, password) VALUES (?, ?, ?)"] := by
  have hres := signup_bigint_insertId sampleExt sampleDb Session.empty
    (.obj [("username", .str "bob"), ("email", .str "b@x.com"), ("password", .str "secret2")])
    "secret2" "$2a$10$secret2" (by decide) (by decide) (by rfl) (by decide)
    (by intro u hu; simp only [sampleDb, List.mem_singleton] at hu; subst hu; decide)
    rfl rfl rfl rfl
  rw [hres]
  exact ⟨rfl, rfl, rfl, rfl, rfl⟩

/-- C3: on a body that is an object, a signup in which username, email or
password is missing (absent, empty or otherwise falsy) or the password is a
string of fewer than 6 UTF-16 units is answered 400 with no statement issued
and the tables and session unchanged; with the three fields present and a
password of length at least 6 the handler passes validation: the first thing
it does is the email lookup. -/
theorem signup_validation (ext : Ext) (db : Db) (sess : Session) (body : JSVal)
    (hobj : body.isNullish = false) :
    (((body.prop "username").truthy = false ∨ (body.prop "email").truthy = false
        ∨ (body.prop "password").truthy = false
        ∨ ∃ p, body.prop "password" = .str p ∧ JSVal.jsLength p < 6) →
      (signup ext db sess body).resp.status = 400
        ∧ (signup ext db sess body).trace = []
        ∧ (signup ext db sess body).db = db
        ∧ (signup ext db sess body).session = sess)
    ∧ (((body.prop "username").truthy = true ∧ (body.prop "email").truthy = true
        ∧ ∃ p, body.prop "password" = .str p ∧ 6 ≤ JSVal.jsLength p) →
      (signup ext db sess body).trace.head?
          = some (.query "SELECT id FROM users WHERE email = ?")
        ∧ (signup ext db sess body).resp.body
          ≠ .obj [("error", .str "All fields are required")]
        ∧ (signup ext db sess body).resp.body
          ≠ .obj [("error", .str "Password must be at least 6 characters")]) := by
  constructor
  · intro hbad
    by_cases hv : (!(body.prop "username").truthy || !(body.prop "email").truthy
        || !(body.prop "password").truthy) = true
    · simp [signup, hobj, hv]
    · have hshort : jsLt ext ((body.prop "password").prop "length") (.fin 6) = some true := by
        rcases hbad with h | h | h | ⟨p, hp, hlen⟩
        · simp [h] at hv
        · simp [h] at hv
        · simp [h] at hv
        · rw [hp, jsLt_length_six]; simpa using hlen
      simp [signup, hobj, hv, hshort]
  · rintro ⟨hu, he, p, hp, hlen⟩
    have hpt : (JSVal.str p).truthy = true := str_truthy_of_length p 5 hlen
    have hlt : jsLt ext ((JSVal.str p).prop "length") (.fin 6) = some false := by
      rw [jsLt_length_six]; simpa using hlen
    simp only [signup, hobj, hu, he, hp, hpt, hlt]
    refine ⟨?_, ?_, ?_⟩ <;> (simp; split_ifs <;> try split) <;> simp

/-- C3 witness: a signup with a password of five characters. -/
theorem signup_validation_witness :
    (signup sampleExt sampleDb Session.empty
      (.obj [("username", .str "bob"), ("email", .str "b@x.com"),
        ("password", .str "abcde")])).resp.status = 400 :=
  ((signup_validation sampleExt sampleDb Session.empty
    (.obj [("username", .str "bob"), ("email", .str "b@x.com"), ("password", .str "abcde")])
    rfl).1 (Or.inr (Or.inr (Or.inr ⟨"abcde", by rfl, by decide⟩)))).1

/-! ## C4 to C7: login, status, the session, logout -/

/-- C4 counterexample: ann exists and the password sent is the number 42,
which is present (truthy) but not a string: `bcrypt.compare` rejects it and
the answer is 500 "Server error during login", neither 401 nor 200. -/
theorem login_number_password_answered_500 :
    (login sampleExt sampleDb Session.empty
      (.obj [("username", .str "ann"), ("password", .num (.fin 42))])).resp
      = ⟨500, .obj [("error", .str "Server error during login")]⟩
      ∧ ((JSVal.obj [("username", .str "ann"), ("password", .num (.fin 42))]).prop
          "username").truthy = true
      ∧ ((JSVal.obj [("username", .str "ann"), ("password", .num (.fin 42))]).prop
          "password").truthy = true
      ∧ (login sampleExt sampleDb Session.empty
        (.obj [("username", .str "ann"), ("password", .num (.fin 42))])).resp.status ≠ 401
      ∧ (login sampleExt sampleDb Session.empty
        (.obj [("username", .str "ann"), ("password", .num (.fin 42))])).resp.status ≠ 200 := by
  have h42 : (JSVal.num (.fin 42)).truthy = true := by norm_num [JSVal.truthy, JSNum.truthy]
  have hpw : (JSVal.obj [("username", .str "ann"), ("password", .num (.fin 42))]).prop
      "password" = .num (.fin 42) := rfl
  have hun : (JSVal.obj [("username", .str "ann"), ("password", .num (.fin 42))]).prop
      "username" = .str "ann" := rfl
  have hut : (JSVal.str "ann").truthy = true := rfl
  have hrows : usersMatching sampleExt sampleDb (.str "ann")
      = [⟨1, "ann", "a@x.com", "$2a$10$secret1"⟩] := by decide
  have hcmp : sampleExt.compare (.num (.fin 42)) "$2a$10$secret1" = none := rfl
  have hres : login sampleExt sampleDb Session.empty
      (.obj [("username", .str "ann"), ("password", .num (.fin 42))])
      = ⟨⟨500, .obj [("error", .str "Server error during login")]⟩, sampleDb, Session.empty,
        [.query "SELECT * FROM users WHERE email = ? OR name = ?"]⟩ := by
    have hdb : sampleExt.dbFails 0 = false := rfl
    simp [login, JSVal.isNullish, hpw, hun, hut, h42, hrows, hcmp, hdb]
  rw [hres, hpw, hun]
  exact ⟨rfl, hut, h42, by decide, by decide⟩

/-- C4 amended: for every users table and every login with username and
password present, the rows looked up are exactly the rows of the users table
whose email or whose name is the submitted username, in the order of the
table.  When the lookup returns: with no such row the answer is 401 "Invalid
credentials"; otherwise bcrypt compares the password with the hash of the
first such row, and the answer is 401 "Invalid credentials" when it finds no
match, 200 with the id, name and email of that row (and nothing else of it)
when it finds a match, and 500 "Server error during login" when bcrypt
rejects the call, as it does for a password that is not a string.  The
session holds the id, name and email of the row after the 200 answer and is
unchanged after every other answer, also when the lookup itself fails (500).
The tables are unchanged. -/
theorem login_outcomes (ext : Ext) (db : Db) (sess : Session) (body : JSVal) (rows : List UserRow)
    (hu : (body.prop "username").truthy = true)
    (hp : (body.prop "password").truthy = true)
    (hrows : rows = db.users.filter (fun u =>
      u.email == bindText ext (body.prop "username")
        || u.name == bindText ext (body.prop "username"))) :
    (∀ u, u ∈ rows ↔ u ∈ db.users
        ∧ (u.email = bindText ext (body.prop "username")
          ∨ u.name = bindText ext (body.prop "username")))
    ∧ (ext.dbFails 0 = true →
        (login ext db sess body).resp = ⟨500, .obj [("error", .str "Server error during login")]⟩
          ∧ (login ext db sess body).session = sess)
    ∧ (ext.dbFails 0 = false →
        (rows = [] →
          (login ext db sess body).resp = ⟨401, .obj [("error", .str "Invalid credentials")]⟩
            ∧ (login ext db sess body).session = sess)
        ∧ (∀ user rest, rows = user :: rest →
          (ext.compare (body.prop "password") user.password = some false →
            (login ext db sess body).resp
                = ⟨401, .obj [("error", .str "Invalid credentials")]⟩
              ∧ (login ext db sess body).session = sess)
          ∧ (ext.compare (body.prop "password") user.password = some true →
            (login ext db sess body).resp = ⟨200, .obj [("success", .bool true),
                ("message", .str "Login successful"),
                ("user", .obj [("id", .num (JSNum.ofNat user.id)), ("name", .str user.name),
                  ("email", .str user.email)])]⟩
              ∧ (login ext db sess body).session
                = ⟨some user.id, .str user.name, .str user.email⟩)
          ∧ (ext.compare (body.prop "password") user.password = none →
            (login ext db sess body).resp
                = ⟨500, .obj [("error", .str "Server error during login")]⟩
              ∧ (login ext db sess body).session = sess)))
    ∧ (login ext db sess body).db = db := by
  have hnull : body.isNullish = false := JSVal.isNullish_of_prop_truthy body "username" hu
  have hum : usersMatching ext db (body.prop "username") = rows := by
    rw [hrows]
    rfl
  refine ⟨?_, ?_, ?_, ?_⟩
  · intro u
    rw [hrows]
    simp [List.mem_filter]
  · intro hdb
    simp [login, hnull, hu, hp, hdb]
  · intro hdb
    refine ⟨?_, ?_⟩
    · intro hnone
      rw [hnone] at hum
      simp [login, hnull, hu, hp, hdb, hum]
    · intro user rest hsome
      rw [hsome] at hum
      refine ⟨?_, ?_, ?_⟩ <;> intro hc <;> simp [login, hnull, hu, hp, hdb, hum, hc]
  · simp only [login]
    repeat' split
    all_goals rfl

/-- C4 witness: ann logs in by name with her password. -/
theorem login_outcomes_witness :
    (login sampleExt sampleDb Session.empty
      (.obj [("username", .str "ann"), ("password", .str "secret1")])).session = annSession :=
  ((((login_outcomes sampleExt sampleDb Session.empty
    (.obj [("username", .str "ann"), ("password", .str "secret1")])
    [⟨1, "ann", "a@x.com", "$2a$10$secret1"⟩]
    (by decide) (by decide) (by decide)).2.2.1 rfl).2 ⟨1, "ann", "a@x.com", "$2a$10$secret1"⟩ []
      rfl).2.1 (by decide)).2

/-- C5: the status handler always answers 200 and leaves the session and the
tables as they are; the body is authenticated true with the id, name and email
of the session when the session holds a userId (the test of the handler: a row
id other than 0), and authenticated false otherwise. -/
theorem status_reports_session (db : Db) (sess : Session) :
    (status db sess).resp.status = 200
      ∧ (status db sess).session = sess
      ∧ (status db sess).db = db
      ∧ (status db sess).trace = []
      ∧ (sess.hasUser = true ↔ ∃ n, sess.userId = some (n + 1))
      ∧ (∀ n, sess.userId = some (n + 1) →
          (status db sess).resp.body = .obj [("authenticated", .bool true),
            ("user", .obj [("id", .num (JSNum.ofNat (n + 1))), ("name", sess.userName),
              ("email", sess.userEmail)])])
      ∧ (sess.hasUser = false →
          (status db sess).resp.body = .obj [("authenticated", .bool false)]) := by
  have hiff : sess.hasUser = true ↔ ∃ n, sess.userId = some (n + 1) := by
    cases hid : sess.userId with
    | none => simp [Session.hasUser, hid]
    | some k =>
      cases k with
      | zero => simp [Session.hasUser, hid]
      | succ m => simp [Session.hasUser, hid]
  refine ⟨?_, ?_, ?_, ?_, hiff, ?_, ?_⟩
  · simp only [status]; split <;> rfl
  · simp only [status]; split <;> rfl
  · simp only [status]; split <;> rfl
  · simp only [status]; split <;> rfl
  · intro n hn
    have h : sess.hasUser = true := hiff.mpr ⟨n, hn⟩
    simp [status, h, Session.userIdVal, hn]
  · intro h
    simp [status, h]

theorem signup_session (ext : Ext) (db : Db) (sess : Session) (body : JSVal) :
    ((signup ext db sess body).session = sess
        ∧ ((signup ext db sess body).resp.status = 400
          ∨ (signup ext db sess body).resp.status = 500))
      ∨ ((signup ext db sess body).resp.status = 200
        ∧ (signup ext db sess body).resp.body.prop "success" = .bool true) := by
  simp only [signup]
  repeat' split
  all_goals first
    | exact Or.inl ⟨rfl, Or.inl rfl⟩
    | exact Or.inl ⟨rfl, Or.inr rfl⟩
    | exact Or.inr ⟨rfl, rfl⟩

theorem login_session (ext : Ext) (db : Db) (sess : Session) (body : JSVal) :
    ((login ext db sess body).session = sess
        ∧ ((login ext db sess body).resp.status = 400
          ∨ (login ext db sess body).resp.status = 401
          ∨ (login ext db sess body).resp.status = 500))
      ∨ ((login ext db sess body).resp.status = 200
        ∧ (login ext db sess body).resp.body.prop "success" = .bool true) := by
  simp only [login]
  repeat' split
  all_goals first
    | exact Or.inl ⟨rfl, Or.inl rfl⟩
    | exact Or.inl ⟨rfl, Or.inr (Or.inl rfl)⟩
    | exact Or.inl ⟨rfl, Or.inr (Or.inr rfl)⟩
    | exact Or.inr ⟨rfl, rfl⟩

theorem logout_session (ext : Ext) (db : Db) (sess : Session) :
    (logout ext db sess).session = sess ∨ (logout ext db sess).session = Session.empty := by
  simp only [logout]
  split
  · exact Or.inl rfl
  · exact Or.inr rfl

theorem status_session (db : Db) (sess : Session) : (status db sess).session = sess := by
  simp only [status]; split <;> rfl

theorem postMoods_session (ext : Ext) (db : Db) (sess : Session) (body : JSVal) :
    (postMoods ext db sess body).session = sess := by
  simp only [postMoods]
  repeat' split
  all_goals rfl

theorem getMoods_session (ext : Ext) (db : Db) (sess : Session) :
    (getMoods ext db sess).session = sess := by
  simp only [getMoods]
  repeat' split
  all_goals rfl

theorem postMessages_session (ext : Ext) (db : Db) (sess : Session) (body : JSVal) :
    (postMessages ext db sess body).session = sess := by
  simp only [postMessages]
  repeat' split
  all_goals rfl

theorem getMessages_session (ext : Ext) (db : Db) (sess : Session) :
    (getMessages ext db sess).session = sess := by
  simp only [getMessages]
  repeat' split
  all_goals rfl

theorem getResources_session (ext : Ext) (db : Db) (sess : Session) (query : JSVal) :
    (getResources ext db sess query).session = sess := by
  simp only [getResources]
  repeat' split
  all_goals rfl

theorem postChat_session (cfg : Config) (ext : Ext) (db : Db) (sess : Session) (body : JSVal) :
    (postChat cfg ext db sess body).session = sess := by
  simp only [postChat]
  repeat' split
  all_goals rfl

theorem postContact_session (cfg : Config) (ext : Ext) (db : Db) (sess : Session)
    (body : JSVal) : (postContact cfg ext db sess body).session = sess := by
  simp only [postContact]
  repeat' split
  all_goals rfl

/-- C6: the session changes only through the auth routes.  A request that
finds the session without a userId and leaves it with one was a signup or a
login answered 200 with success true; a signup or login answered anything else
(400, 401 or 500) leaves the session as it was; so does every request to the
moods, messages, resources, chat, contact, status and health routes. -/
theorem session_state_machine (cfg : Config) (ext : Ext) (db : Db) (sess : Session)
    (req : Request) :
    (sess.hasUser = false → (handle cfg ext db sess req).session.hasUser = true →
        (req.route = .signup ∨ req.route = .login)
          ∧ (handle cfg ext db sess req).resp.status = 200
          ∧ (handle cfg ext db sess req).resp.body.prop "success" = .bool true)
    ∧ ((req.route = .signup ∨ req.route = .login) →
        (handle cfg ext db sess req).resp.status ≠ 200 →
        (handle cfg ext db sess req).session = sess
          ∧ ((handle cfg ext db sess req).resp.status = 400
            ∨ (handle cfg ext db sess req).resp.status = 401
            ∨ (handle cfg ext db sess req).resp.status = 500))
    ∧ (req.route ≠ .signup → req.route ≠ .login → req.route ≠ .logout →
        (handle cfg ext db sess req).session = sess) := by
  obtain ⟨route, body, query⟩ := req
  have hsame : ∀ r : Result, sess.hasUser = false → r.session = sess →
      r.session.hasUser = true → False := by
    intro r h0 heq h1
    rw [heq, h0] at h1
    exact Bool.noConfusion h1
  refine ⟨?_, ?_, ?_⟩
  · intro h0 h1
    cases route
    · rcases signup_session ext db sess body with ⟨hs, _⟩ | ⟨h200, hok⟩
      · exact (hsame _ h0 hs h1).elim
      · exact ⟨Or.inl rfl, h200, hok⟩
    · rcases login_session ext db sess body with ⟨hs, _⟩ | ⟨h200, hok⟩
      · exact (hsame _ h0 hs h1).elim
      · exact ⟨Or.inr rfl, h200, hok⟩
    · rcases logout_session ext db sess with hs | hs
      · exact (hsame _ h0 hs h1).elim
      · have h2 : (logout ext db sess).session.hasUser = true := h1
        rw [hs] at h2
        exact Bool.noConfusion h2
    · exact (hsame _ h0 (status_session db sess) h1).elim
    · exact (hsame _ h0 (postMoods_session ext db sess body) h1).elim
    · exact (hsame _ h0 (getMoods_session ext db sess) h1).elim
    · exact (hsame _ h0 (postMessages_session ext db sess body) h1).elim
    · exact (hsame _ h0 (getMessages_session ext db sess) h1).elim
    · exact (hsame _ h0 (getResources_session ext db sess query) h1).elim
    · exact (hsame _ h0 (postChat_session cfg ext db sess body) h1).elim
    · exact (hsame _ h0 (postContact_session cfg ext db sess body) h1).elim
    · exact (hsame _ h0 rfl h1).elim
  · intro hroute hstatus
    rcases hroute with h | h
    · have h2 : route = .signup := h
      subst h2
      rcases signup_session ext db sess body with ⟨hs, h4 | h5⟩ | ⟨h200, _⟩
      · exact ⟨hs, Or.inl h4⟩
      · exact ⟨hs, Or.inr (Or.inr h5)⟩
      · exact absurd h200 hstatus
    · have h2 : route = .login := h
      subst h2
      rcases login_session ext db sess body with ⟨hs, hst⟩ | ⟨h200, _⟩
      · exact ⟨hs, hst⟩
      · exact absurd h200 hstatus
  · intro h1 h2 h3
    cases route
    · exact absurd rfl h1
    · exact absurd rfl h2
    · exact absurd rfl h3
    · exact status_session db sess
    · exact postMoods_session ext db sess body
    · exact getMoods_session ext db sess
    · exact postMessages_session ext db sess body
    · exact getMessages_session ext db sess
    · exact getResources_session ext db sess query
    · exact postChat_session cfg ext db sess body
    · exact postContact_session cfg ext db sess body
    · rfl

/-- C7: when the session store clears without error, logout answers 200 with
success true and the status handler run on the session that is left answers
authenticated false; logout answers 500 exactly when the store reports an
error, and it never answers anything but 200 or 500. -/
theorem logout_destroys_session (ext : Ext) (db : Db) (sess : Session) :
    (ext.destroyErr = false →
        (logout ext db sess).resp = ⟨200, .obj [("success", .bool true),
            ("message", .str "Logged out successfully")]⟩
          ∧ (logout ext db sess).resp.body.prop "success" = .bool true
          ∧ ∀ db2, (status db2 (logout ext db sess).session).resp.body
              = .obj [("authenticated", .bool false)])
    ∧ ((logout ext db sess).resp.status = 500 ↔ ext.destroyErr = true)
    ∧ ((logout ext db sess).resp.status = 200 ∨ (logout ext db sess).resp.status = 500)
    ∧ (logout ext db sess).db = db := by
  cases h : ext.destroyErr <;> simp [logout, h, status, Session.empty, Session.hasUser,
    JSVal.prop]

/-! ## C8 to C10: POST /api/moods -/

/-- C8: without an authenticated session, POST /api/moods answers 401 for
every body, valid or not (even one that is not an object); no statement is
issued, no row is inserted and the session is unchanged. -/
theorem postMoods_requires_session (ext : Ext) (db : Db) (sess : Session) (body : JSVal)
    (hanon : sess.hasUser = false) :
    (postMoods ext db sess body).resp = ⟨401, .obj [("success", .bool false),
        ("error", .str "Authentication required. Please log in.")]⟩
      ∧ (postMoods ext db sess body).db = db
      ∧ (postMoods ext db sess body).trace = []
      ∧ (postMoods ext db sess body).session = sess := by
  simp [postMoods, hanon]

/-- C8 witness: a valid mood sent without a session. -/
theorem postMoods_requires_session_witness :
    (postMoods sampleExt sampleDb Session.empty (.obj [("mood_level", .num (.fin 3))])).resp.status
      = 401 :=
  congrArg Response.status (postMoods_requires_session sampleExt sampleDb Session.empty
    (.obj [("mood_level", .num (.fin 3))]) rfl).1

/-- C9: with an authenticated session and an object as body, a mood_level
that is missing or not of type number (string, boolean, null, object, array),
that is NaN, or that is a number below 1 or above 5, is answered 400 with
success false; no statement is issued and no row is inserted. -/
theorem postMoods_rejects_invalid_level (ext : Ext) (db : Db) (sess : Session) (body : JSVal)
    (hauth : sess.hasUser = true) (hobj : body.isNullish = false)
    (hbad : (body.prop "mood_level").typeOf ≠ "number"
      ∨ ∃ n, body.prop "mood_level" = .num n
          ∧ (n = .nan ∨ n.lt (.fin 1) = true ∨ n.gt (.fin 5) = true)) :
    (postMoods ext db sess body).resp.status = 400
      ∧ (postMoods ext db sess body).resp.body.prop "success" = .bool false
      ∧ (postMoods ext db sess body).db = db
      ∧ (postMoods ext db sess body).trace = [] := by
  by_cases ht : (body.prop "mood_level").truthy = true
  · have hsecond : ((body.prop "mood_level").typeOf != "number"
        || (body.prop "mood_level").asNumber.lt (.fin 1)
        || (body.prop "mood_level").asNumber.gt (.fin 5)) = true := by
      rcases hbad with hty | ⟨n, hn, hnan | hlt | hgt⟩
      · simp [hty]
      · rw [hn, hnan] at ht
        simp [JSVal.truthy, JSNum.truthy] at ht
      · simp [hn, JSVal.asNumber, hlt]
      · simp [hn, JSVal.asNumber, hgt]
    have hres : postMoods ext db sess body = ⟨⟨400, .obj [("success", .bool false),
        ("error", .str "Invalid mood_level. Must be a number between 1 and 5.")]⟩,
        db, sess, []⟩ := by
      simp only [postMoods, hauth, hobj, ht, hsecond]
      simp
    rw [hres]
    exact ⟨rfl, rfl, rfl, rfl⟩
  · have hres : postMoods ext db sess body = ⟨⟨400, .obj [("success", .bool false),
        ("error", .str "Missing required field. Please provide mood_level.")]⟩,
        db, sess, []⟩ := by
      simp [postMoods, hauth, hobj, ht]
    rw [hres]
    exact ⟨rfl, rfl, rfl, rfl⟩

/-- C9 witness: ann sends the mood level 6. -/
theorem postMoods_rejects_invalid_level_witness :
    (postMoods sampleExt sampleDb annSession (.obj [("mood_level", .num (.fin 6))])).resp.status
      = 400 :=
  (postMoods_rejects_invalid_level sampleExt sampleDb annSession
    (.obj [("mood_level", .num (.fin 6))]) rfl rfl
    (Or.inr ⟨.fin 6, rfl, Or.inr (Or.inr (by norm_num [JSNum.gt, JSNum.lt]))⟩)).1

/-- C10 counterexample: ann, logged in, sends the mood level 2.5; the answer
is 201 and the row inserted has the mood level 2.5, which is not an integer. -/
theorem postMoods_accepts_fractional_level :
    (postMoods sampleExt sampleDb annSession
        (.obj [("mood_level", .num (.fin (5 / 2)))])).resp.status = 201
      ∧ (postMoods sampleExt sampleDb annSession
        (.obj [("mood_level", .num (.fin (5 / 2)))])).db.moods
          = [⟨1, 1, .fin (5 / 2), none, 1000⟩]
      ∧ (JSNum.fin (5 / 2)).isInteger = false := by
  have hlt : JSNum.lt (.fin (5 / 2)) (.fin 1) = false := by norm_num [JSNum.lt]
  have hgt : JSNum.gt (.fin (5 / 2)) (.fin 5) = false := by norm_num [JSNum.gt, JSNum.lt]
  have htr : (JSVal.num (.fin (5 / 2))).truthy = true := by
    norm_num [JSVal.truthy, JSNum.truthy]
  have hprop : (JSVal.obj [("mood_level", .num (.fin (5 / 2)))]).prop "mood_level"
      = .num (.fin (5 / 2)) := rfl
  have hnotes : (JSVal.obj [("mood_level", .num (.fin (5 / 2)))]).prop "notes"
      = .undefined := rfl
  refine ⟨?_, ?_, ?_⟩
  · simp [postMoods, annSession, Session.hasUser, JSVal.isNullish, hprop, htr, JSVal.typeOf,
      JSVal.asNumber, hlt, hgt, sampleExt]
  · have hund : JSVal.undefined.truthy = false := rfl
    simp [postMoods, annSession, Session.hasUser, JSVal.isNullish, hprop, hnotes, htr,
      JSVal.typeOf, JSVal.asNumber, hlt, hgt, sampleExt, sampleDb, nextId, bindNullable, hund]
  · simp [JSNum.isInteger, Rat.isInt]
    norm_num

/-- C10 amended: every row POST /api/moods inserts carries the submitted
mood_level, a number between 1 and 5 inclusive, integer or not; and with an
authenticated session every number between 1 and 5, integer or not, is
accepted: the row is inserted once the INSERT succeeds and the answer is 201
once the SELECT that follows succeeds too. -/
theorem postMoods_inserted_level_in_range (ext : Ext) (db : Db) (sess : Session)
    (body : JSVal) :
    ((postMoods ext db sess body).db.moods = db.moods
      ∨ ∃ q : ℚ, 1 ≤ q ∧ q ≤ 5 ∧ body.prop "mood_level" = .num (.fin q)
          ∧ (postMoods ext db sess body).db.moods = db.moods ++
              [⟨nextId (db.moods.map (fun m => m.id)), sess.userId.getD 0, .fin q,
                bindNullable ext (body.prop "notes"), ext.now⟩])
    ∧ (∀ q : ℚ, 1 ≤ q → q ≤ 5 → sess.hasUser = true → body.isNullish = false →
        body.prop "mood_level" = .num (.fin q) → ext.dbFails 0 = false →
        (postMoods ext db sess body).db.moods = db.moods ++
            [⟨nextId (db.moods.map (fun m => m.id)), sess.userId.getD 0, .fin q,
              bindNullable ext (body.prop "notes"), ext.now⟩]
          ∧ (ext.dbFails 1 = false → (postMoods ext db sess body).resp.status = 201)) := by
  have hacc : ∀ q : ℚ, 1 ≤ q → q ≤ 5 → sess.hasUser = true → body.isNullish = false →
      body.prop "mood_level" = .num (.fin q) → ext.dbFails 0 = false →
      (postMoods ext db sess body).db.moods = db.moods ++
          [⟨nextId (db.moods.map (fun m => m.id)), sess.userId.getD 0, .fin q,
            bindNullable ext (body.prop "notes"), ext.now⟩]
        ∧ (ext.dbFails 1 = false → (postMoods ext db sess body).resp.status = 201) := by
    intro q h1 h5 hauth hobj hm hdb
    have htr : (JSVal.num (.fin q)).truthy = true := by
      have : q ≠ 0 := by linarith
      simpa [JSVal.truthy, JSNum.truthy] using this
    have hlt : JSNum.lt (.fin q) (.fin 1) = false := by simpa [JSNum.lt] using h1
    have hgt : JSNum.gt (.fin q) (.fin 5) = false := by simpa [JSNum.gt, JSNum.lt] using h5
    have hty : (JSVal.num (.fin q)).typeOf = "number" := rfl
    constructor
    · cases h2 : ext.dbFails 1 <;>
        simp [postMoods, hauth, hobj, hm, htr, hty, JSVal.asNumber, hlt, hgt, hdb, h2]
    · intro h2
      simp [postMoods, hauth, hobj, hm, htr, hty, JSVal.asNumber, hlt, hgt, hdb, h2]
  refine ⟨?_, hacc⟩
  by_cases hauth : sess.hasUser = true
  swap
  · left; simp [postMoods, hauth]
  by_cases hobj : body.isNullish = true
  · left; simp [postMoods, hauth, hobj]
  have hobj2 : body.isNullish = false := by simpa using hobj
  by_cases hdb : ext.dbFails 0 = true
  · left
    simp only [postMoods, hauth, hobj2, hdb]
    simp
    split_ifs <;> rfl
  have hdb2 : ext.dbFails 0 = false := by simpa using hdb
  cases hm : body.prop "mood_level" with
  | num n =>
    cases n with
    | fin q =>
      by_cases hq : 1 ≤ q ∧ q ≤ 5
      · right
        exact ⟨q, hq.1, hq.2, rfl, (hacc q hq.1 hq.2 hauth hobj2 hm hdb2).1⟩
      · left
        have hor : (JSNum.lt (.fin q) (.fin 1) || JSNum.gt (.fin q) (.fin 5)) = true := by
          simp only [JSNum.lt, JSNum.gt, Bool.or_eq_true, decide_eq_true_eq]
          by_contra hcon
          push_neg at hcon
          exact hq ⟨hcon.1, hcon.2⟩
        simp only [Bool.or_eq_true] at hor
        simp only [postMoods, hauth, hobj2, hm, JSVal.asNumber]
        simp
        split_ifs <;> first | rfl | (exfalso; tauto)
    | nan => left; simp [postMoods, hauth, hobj2, hm, JSVal.truthy, JSNum.truthy]
    | posInf =>
      left; simp [postMoods, hauth, hobj2, hm, JSVal.truthy, JSNum.truthy, JSVal.asNumber,
        JSNum.gt, JSNum.lt]
    | negInf =>
      left; simp [postMoods, hauth, hobj2, hm, JSVal.truthy, JSNum.truthy, JSVal.asNumber,
        JSNum.gt, JSNum.lt]
  | undefined => left; simp [postMoods, hauth, hobj2, hm, JSVal.truthy]
  | null => left; simp [postMoods, hauth, hobj2, hm, JSVal.truthy]
  | bool b => left; cases b <;> simp [postMoods, hauth, hobj2, hm, JSVal.truthy, JSVal.typeOf]
  | str t =>
    left
    simp only [postMoods, hauth, hobj2, hm, JSVal.typeOf]
    simp
    split_ifs <;> rfl
  | arr items => left; simp [postMoods, hauth, hobj2, hm, JSVal.truthy, JSVal.typeOf]
  | obj fields => left; simp [postMoods, hauth, hobj2, hm, JSVal.truthy, JSVal.typeOf]

/-! ## C11 to C13: mood creation, listings -/

theorem insertBy_perm {α : Type} (before : α → α → Bool) (x : α) (l : List α) :
    (insertBy before x l).Perm (x :: l) := by
  induction l with
  | nil => exact List.Perm.refl _
  | cons y ys ih =>
    simp only [insertBy]
    split
    · exact (ih.cons y).trans (List.Perm.swap x y ys)
    · exact List.Perm.refl _

theorem orderByCreatedDesc_perm {α : Type} (tie : Nat → Nat → Bool) (created id : α → Nat)
    (rows : List α) : (orderByCreatedDesc tie created id rows).Perm rows := by
  induction rows with
  | nil => exact List.Perm.refl _
  | cons r rs ih =>
    simp only [orderByCreatedDesc, List.foldr_cons] at ih ⊢
    exact (insertBy_perm _ r _).trans (ih.cons r)

theorem insertBy_newestFirst {α : Type} (tie : Nat → Nat → Bool) (created id : α → Nat)
    (x : α) (l : List α) (hl : l.Pairwise (fun a b => created b ≤ created a)) :
    (insertBy (fun a b => decide (created b < created a)
        || (created a == created b && tie (id a) (id b))) x l).Pairwise
      (fun a b => created b ≤ created a) := by
  induction l with
  | nil => simp [insertBy]
  | cons y ys ih =>
    have hys := List.pairwise_cons.mp hl
    simp only [insertBy]
    split
    · rename_i hbefore
      have hxy : created x ≤ created y := by
        simp only [Bool.or_eq_true, decide_eq_true_eq, Bool.and_eq_true, beq_iff_eq] at hbefore
        rcases hbefore with h | ⟨h, _⟩ <;> omega
      refine List.pairwise_cons.mpr ⟨?_, ih hys.2⟩
      intro z hz
      rcases List.mem_cons.mp ((insertBy_perm _ x ys).subset hz) with rfl | hmem
      · exact hxy
      · exact hys.1 z hmem
    · rename_i hbefore
      have hyx : created y ≤ created x := by
        simp only [Bool.or_eq_true, decide_eq_true_eq, Bool.and_eq_true, beq_iff_eq,
          not_or] at hbefore
        omega
      refine List.pairwise_cons.mpr ⟨?_, hl⟩
      intro z hz
      rcases List.mem_cons.mp hz with rfl | hmem
      · exact hyx
      · exact Nat.le_trans (hys.1 z hmem) hyx

theorem orderByCreatedDesc_newestFirst {α : Type} (tie : Nat → Nat → Bool)
    (created id : α → Nat) (rows : List α) :
    (orderByCreatedDesc tie created id rows).Pairwise (fun a b => created b ≤ created a) := by
  induction rows with
  | nil => simp [orderByCreatedDesc]
  | cons r rs ih =>
    simp only [orderByCreatedDesc, List.foldr_cons] at ih ⊢
    exact insertBy_newestFirst tie created id r _ ih

theorem JSVal.isNullish_of_prop_ne_undefined (v : JSVal) (k : String)
    (h : v.prop k ≠ .undefined) : v.isNullish = false := by
  cases v <;> simp_all [JSVal.prop, JSVal.isNullish]

theorem filter_id_append_fresh {α : Type} (id : α → Nat) (rows : List α) (row : α)
    (hfresh : ∀ r ∈ rows, id r ≠ id row) :
    (rows ++ [row]).filter (fun m => id m == id row) = [row] := by
  have hnil : rows.filter (fun m => id m == id row) = [] := by
    simp only [List.filter_eq_nil_iff, beq_iff_eq]
    exact hfresh
  simp [List.filter_append, hnil]

theorem nextId_fresh {α : Type} (id : α → Nat) (rows : List α) :
    ∀ r ∈ rows, id r ≠ nextId (rows.map id) := by
  intro r hr
  have := lt_nextId (rows.map id) (id r) (List.mem_map_of_mem _ hr)
  omega

/-- C11 counterexample: ann, logged in, sends mood level 3 with the empty
string as notes; the answer is 201 and the row inserted has NULL as notes,
although notes is present in the body (it is the string of length 0). -/
theorem postMoods_empty_notes_stored_null :
    (postMoods sampleExt sampleDb annSession
        (.obj [("mood_level", .num (.fin 3)), ("notes", .str "")])).resp.status = 201
      ∧ (postMoods sampleExt sampleDb annSession
        (.obj [("mood_level", .num (.fin 3)), ("notes", .str "")])).db.moods
          = [⟨1, 1, .fin 3, none, 1000⟩]
      ∧ (JSVal.obj [("mood_level", .num (.fin 3)), ("notes", .str "")]).prop "notes"
          = .str ""
      ∧ (none : Option String) ≠ some "" := by
  have hlt : JSNum.lt (.fin 3) (.fin 1) = false := by norm_num [JSNum.lt]
  have hgt : JSNum.gt (.fin 3) (.fin 5) = false := by norm_num [JSNum.gt, JSNum.lt]
  have htr : (JSVal.num (.fin 3)).truthy = true := by norm_num [JSVal.truthy, JSNum.truthy]
  have hprop : (JSVal.obj [("mood_level", .num (.fin 3)), ("notes", .str "")]).prop
      "mood_level" = .num (.fin 3) := rfl
  have hnotes : (JSVal.obj [("mood_level", .num (.fin 3)), ("notes", .str "")]).prop "notes"
      = .str "" := rfl
  have hempty : (JSVal.str "").truthy = false := rfl
  refine ⟨?_, ?_, hnotes, by simp⟩
  · simp [postMoods, annSession, Session.hasUser, JSVal.isNullish, hprop, htr, JSVal.typeOf,
      JSVal.asNumber, hlt, hgt, sampleExt]
  · simp [postMoods, annSession, Session.hasUser, JSVal.isNullish, hprop, hnotes, htr,
      JSVal.typeOf, JSVal.asNumber, hlt, hgt, sampleExt, sampleDb, nextId, bindNullable, hempty]

/-- C11 amended: with an authenticated session and a mood_level that is a
number between 1 and 5 (both statements returning), POST /api/moods answers
201 with success true and the created row; exactly one row is appended to
moods, with a fresh id, the userId of the session, the submitted mood_level
and, as notes, the submitted notes when that value is truthy (a non-empty
string is stored as it is) and NULL when notes is absent, empty or otherwise
falsy; the rows that were there and the other tables are unchanged. -/
theorem postMoods_creates_one_row (ext : Ext) (db : Db) (sess : Session) (body : JSVal)
    (uid : Nat) (q : ℚ)
    (hsess : sess.userId = some uid) (huid : uid ≠ 0)
    (hlevel : body.prop "mood_level" = .num (.fin q)) (h1 : 1 ≤ q) (h5 : q ≤ 5)
    (hins : ext.dbFails 0 = false) (hsel : ext.dbFails 1 = false) :
    (postMoods ext db sess body).resp = ⟨201, .obj [("success", .bool true),
        ("message", .str "Mood logged successfully."),
        ("mood", MoodRow.toJS ⟨nextId (db.moods.map (fun m => m.id)), uid, .fin q,
          bindNullable ext (body.prop "notes"), ext.now⟩)]⟩
      ∧ (postMoods ext db sess body).db.moods = db.moods ++
          [⟨nextId (db.moods.map (fun m => m.id)), uid, .fin q,
            bindNullable ext (body.prop "notes"), ext.now⟩]
      ∧ (∀ m ∈ db.moods, m.id ≠ nextId (db.moods.map (fun m => m.id)))
      ∧ (postMoods ext db sess body).db.users = db.users
      ∧ (postMoods ext db sess body).db.messages = db.messages
      ∧ (postMoods ext db sess body).db.resources = db.resources
      ∧ (∀ t, body.prop "notes" = .str t → t ≠ "" →
          bindNullable ext (body.prop "notes") = some t)
      ∧ ((body.prop "notes").truthy = false → bindNullable ext (body.prop "notes") = none) := by
  have hobj : body.isNullish = false :=
    JSVal.isNullish_of_prop_ne_undefined body "mood_level" (by rw [hlevel]; simp)
  have hauth : sess.hasUser = true := by simp [Session.hasUser, hsess, huid]
  have htr : (JSVal.num (.fin q)).truthy = true := by
    have : q ≠ 0 := by linarith
    simpa [JSVal.truthy, JSNum.truthy] using this
  have hlt : JSNum.lt (.fin q) (.fin 1) = false := by simpa [JSNum.lt] using h1
  have hgt : JSNum.gt (.fin q) (.fin 5) = false := by simpa [JSNum.gt, JSNum.lt] using h5
  have hty : (JSVal.num (.fin q)).typeOf = "number" := rfl
  have hfresh := nextId_fresh (fun m : MoodRow => m.id) db.moods
  have hcreated := filter_id_append_fresh (fun m : MoodRow => m.id) db.moods
    ⟨nextId (db.moods.map (fun m => m.id)), uid, .fin q,
      bindNullable ext (body.prop "notes"), ext.now⟩ hfresh
  have hres : postMoods ext db sess body = ⟨⟨201, .obj [("success", .bool true),
        ("message", .str "Mood logged successfully."),
        ("mood", MoodRow.toJS ⟨nextId (db.moods.map (fun m => m.id)), uid, .fin q,
          bindNullable ext (body.prop "notes"), ext.now⟩)]⟩,
      { db with moods := db.moods ++ [⟨nextId (db.moods.map (fun m => m.id)), uid, .fin q,
          bindNullable ext (body.prop "notes"), ext.now⟩] }, sess,
      [.query "INSERT INTO moods (user_id, mood_level, notes) VALUES (?, ?, ?)",
        .query "SELECT * FROM moods WHERE id = ?"]⟩ := by
    simp only [postMoods, hauth, hobj, hlevel, htr, hty, JSVal.asNumber, hlt, hgt, hins, hsel,
      hsess, Option.getD_some]
    simp [hcreated]
  rw [hres]
  refine ⟨rfl, rfl, hfresh, rfl, rfl, rfl, ?_, ?_⟩
  · intro t ht hne
    simp [bindNullable, ht, JSVal.truthy, hne, bindText]
  · intro hf
    simp [bindNullable, hf]

/-- C11 witness: ann logs the mood level 4 with a note. -/
theorem postMoods_creates_one_row_witness :
    (postMoods sampleExt sampleDb annSession
      (.obj [("mood_level", .num (.fin 4)), ("notes", .str "good day")])).db.moods
        = [⟨1, 1, .fin 4, some "good day", 1000⟩] :=
  (postMoods_creates_one_row sampleExt sampleDb annSession
    (.obj [("mood_level", .num (.fin 4)), ("notes", .str "good day")]) 1 4
    rfl (by decide) rfl (by norm_num) (by norm_num) rfl rfl).2.1

theorem hasUser_of_userId (sess : Session) (uid : Nat) (hsess : sess.userId = some uid)
    (huid : uid ≠ 0) : sess.hasUser = true := by
  simp [Session.hasUser, hsess, huid]

theorem getMoods_ok (ext : Ext) (db : Db) (sess : Session) (uid : Nat)
    (hsess : sess.userId = some uid) (huid : uid ≠ 0) (hdb : ext.dbFails 0 = false) :
    getMoods ext db sess = ⟨⟨200, .obj [("success", .bool true),
        ("count", .num (JSNum.ofNat (orderByCreatedDesc ext.tie MoodRow.created_at MoodRow.id
          (db.moods.filter (fun m => m.user_id == uid))).length)),
        ("moods", .arr ((orderByCreatedDesc ext.tie MoodRow.created_at MoodRow.id
          (db.moods.filter (fun m => m.user_id == uid))).map MoodRow.toJS))]⟩, db, sess,
      [.query "SELECT * FROM moods WHERE user_id = ? ORDER BY created_at DESC"]⟩ := by
  simp [getMoods, hasUser_of_userId sess uid hsess huid, hdb, hsess]

theorem getMessages_ok (ext : Ext) (db : Db) (sess : Session) (uid : Nat)
    (hsess : sess.userId = some uid) (huid : uid ≠ 0) (hdb : ext.dbFails 0 = false) :
    getMessages ext db sess = ⟨⟨200, .obj [("success", .bool true),
        ("count", .num (JSNum.ofNat (orderByCreatedDesc ext.tie MessageRow.created_at
          MessageRow.id (db.messages.filter (fun m => m.user_id == some uid))).length)),
        ("messages", .arr ((orderByCreatedDesc ext.tie MessageRow.created_at MessageRow.id
          (db.messages.filter (fun m => m.user_id == some uid))).map MessageRow.toJS))]⟩,
      db, sess,
      [.query "SELECT * FROM messages WHERE user_id = ? ORDER BY created_at DESC"]⟩ := by
  simp [getMessages, hasUser_of_userId sess uid hsess huid, hdb, hsess]

/-- C12: GET /api/moods and GET /api/messages answer 401 when the session
holds no userId.  With a userId (the statement returning) they answer 200 and
the rows returned are, up to order, exactly the rows of the table whose
user_id is the userId of the session: every returned row has that user_id, so
no row of another user and no anonymous message is among them; count is the
number of returned rows; the tables are unchanged. -/
theorem listings_only_own_rows (ext : Ext) (db : Db) (sess : Session) :
    (sess.hasUser = false →
        (getMoods ext db sess).resp = ⟨401, .obj [("success", .bool false),
            ("error", .str "Authentication required. Please log in.")]⟩
          ∧ (getMessages ext db sess).resp = ⟨401, .obj [("success", .bool false),
            ("error", .str "Authentication required. Please log in.")]⟩)
    ∧ (∀ uid, sess.userId = some uid → uid ≠ 0 → ext.dbFails 0 = false →
        (∃ rows : List MoodRow,
          rows.Perm (db.moods.filter (fun m => m.user_id == uid))
            ∧ (∀ r ∈ rows, r.user_id = uid)
            ∧ (getMoods ext db sess).resp = ⟨200, .obj [("success", .bool true),
                ("count", .num (JSNum.ofNat rows.length)),
                ("moods", .arr (rows.map MoodRow.toJS))]⟩)
        ∧ (∃ rows : List MessageRow,
          rows.Perm (db.messages.filter (fun m => m.user_id == some uid))
            ∧ (∀ r ∈ rows, r.user_id = some uid)
            ∧ (getMessages ext db sess).resp = ⟨200, .obj [("success", .bool true),
                ("count", .num (JSNum.ofNat rows.length)),
                ("messages", .arr (rows.map MessageRow.toJS))]⟩))
    ∧ (getMoods ext db sess).db = db
    ∧ (getMessages ext db sess).db = db := by
  refine ⟨?_, ?_, ?_, ?_⟩
  · intro hanon
    simp [getMoods, getMessages, hanon]
  · intro uid hsess huid hdb
    constructor
    · refine ⟨_, orderByCreatedDesc_perm ext.tie MoodRow.created_at MoodRow.id _, ?_, ?_⟩
      · intro r hr
        have hmem := (orderByCreatedDesc_perm ext.tie MoodRow.created_at MoodRow.id _).subset hr
        simpa using (List.mem_filter.mp hmem).2
      · rw [getMoods_ok ext db sess uid hsess huid hdb]
    · refine ⟨_, orderByCreatedDesc_perm ext.tie MessageRow.created_at MessageRow.id _, ?_, ?_⟩
      · intro r hr
        have hmem :=
          (orderByCreatedDesc_perm ext.tie MessageRow.created_at MessageRow.id _).subset hr
        simpa using (List.mem_filter.mp hmem).2
      · rw [getMessages_ok ext db sess uid hsess huid hdb]
  · simp only [getMoods]
    repeat' split
    all_goals rfl
  · simp only [getMessages]
    repeat' split
    all_goals rfl

/-- C12 witness: ann lists her moods in a database that also holds a mood of
bob; every returned row is hers. -/
theorem listings_only_own_rows_witness :
    ∃ rows : List MoodRow,
      rows.Perm (twoUsersDb.moods.filter (fun m => m.user_id == 1))
        ∧ (∀ r ∈ rows, r.user_id = 1)
        ∧ (getMoods sampleExt twoUsersDb annSession).resp = ⟨200, .obj [("success", .bool true),
            ("count", .num (JSNum.ofNat rows.length)),
            ("moods", .arr (rows.map MoodRow.toJS))]⟩ :=
  ((listings_only_own_rows sampleExt twoUsersDb annSession).2.1 1 rfl (by decide) rfl).1

theorem getResources_ok (ext : Ext) (db : Db) (sess : Session) (query : JSVal)
    (hquery : query.isNullish = false) (hdb : ext.dbFails 0 = false) :
    getResources ext db sess query = ⟨⟨200, .obj [("success", .bool true),
        ("count", .num (JSNum.ofNat (orderByCreatedDesc ext.tie ResourceRow.created_at
          ResourceRow.id (if (query.prop "category").truthy
            then db.resources.filter
              (fun r => r.category == bindText ext (query.prop "category"))
            else db.resources)).length)),
        ("resources", .arr ((orderByCreatedDesc ext.tie ResourceRow.created_at ResourceRow.id
          (if (query.prop "category").truthy
            then db.resources.filter
              (fun r => r.category == bindText ext (query.prop "category"))
            else db.resources)).map ResourceRow.toJS))]⟩, db, sess,
      [.query (if (query.prop "category").truthy
        then "SELECT * FROM resources WHERE category = ? ORDER BY created_at DESC"
        else "SELECT * FROM resources ORDER BY created_at DESC")]⟩ := by
  simp [getResources, hquery, hdb]

/-- C13 counterexample: on one and the same database, in which the rows with
id 1 and id 2 have the same created_at, an engine that returns ties with the
larger id first makes the three listings return id 2 before id 1, while an
engine that returns them with the smaller id first gives id 1 before id 2:
the query fixes no order among rows of equal created_at. -/
theorem listing_order_of_ties_not_fixed :
    (getMoods largerIdFirstExt sameSecondDb annSession).resp.body.prop "moods"
        = .arr [MoodRow.toJS ⟨2, 1, .fin 4, none, 1000⟩, MoodRow.toJS ⟨1, 1, .fin 3, none, 1000⟩]
      ∧ (getMoods sampleExt sameSecondDb annSession).resp.body.prop "moods"
        = .arr [MoodRow.toJS ⟨1, 1, .fin 3, none, 1000⟩, MoodRow.toJS ⟨2, 1, .fin 4, none, 1000⟩]
      ∧ (getMessages largerIdFirstExt sameSecondDb annSession).resp.body.prop "messages"
        = .arr [MessageRow.toJS ⟨2, some 1, "thanks", "welcome", 1000⟩,
            MessageRow.toJS ⟨1, some 1, "hello", "hi", 1000⟩]
      ∧ (getResources largerIdFirstExt sameSecondDb Session.empty (.obj [])).resp.body.prop
          "resources"
        = .arr [ResourceRow.toJS ⟨2, "Crisis Resources", "Immediate help",
              "https://988lifeline.org/", "crisis", 1000⟩,
            ResourceRow.toJS ⟨1, "Self-Care Guide", "Practical tips", "https://www.mind.org.uk",
              "self-care", 1000⟩] := by
  refine ⟨?_, ?_, ?_, ?_⟩
  · rw [getMoods_ok largerIdFirstExt sameSecondDb annSession 1 rfl (by decide) rfl]
    rfl
  · rw [getMoods_ok sampleExt sameSecondDb annSession 1 rfl (by decide) rfl]
    rfl
  · rw [getMessages_ok largerIdFirstExt sameSecondDb annSession 1 rfl (by decide) rfl]
    rfl
  · rw [getResources_ok largerIdFirstExt sameSecondDb Session.empty (.obj []) rfl rfl]
    rfl

/-- C13 amended: whenever they answer 200, the lists returned by GET
/api/moods, GET /api/messages and GET /api/resources are the selected rows
ordered by created_at descending: each row is at least as new as every row
after it.  The order among rows of equal created_at is the one the engine
returns; the query does not fix it. -/
theorem listings_newest_first (ext : Ext) (db : Db) (sess : Session) (query : JSVal) :
    (∀ uid, sess.userId = some uid → uid ≠ 0 → ext.dbFails 0 = false →
        (∃ rows : List MoodRow,
          rows.Perm (db.moods.filter (fun m => m.user_id == uid))
            ∧ rows.Pairwise (fun a b => b.created_at ≤ a.created_at)
            ∧ (getMoods ext db sess).resp.body.prop "moods" = .arr (rows.map MoodRow.toJS))
        ∧ (∃ rows : List MessageRow,
          rows.Perm (db.messages.filter (fun m => m.user_id == some uid))
            ∧ rows.Pairwise (fun a b => b.created_at ≤ a.created_at)
            ∧ (getMessages ext db sess).resp.body.prop "messages"
              = .arr (rows.map MessageRow.toJS)))
    ∧ (query.isNullish = false → ext.dbFails 0 = false →
        ∃ rows : List ResourceRow,
          rows.Perm (if (query.prop "category").truthy
              then db.resources.filter
                (fun r => r.category == bindText ext (query.prop "category"))
              else db.resources)
            ∧ rows.Pairwise (fun a b => b.created_at ≤ a.created_at)
            ∧ (getResources ext db sess query).resp.body.prop "resources"
              = .arr (rows.map ResourceRow.toJS)) := by
  constructor
  · intro uid hsess huid hdb
    constructor
    · refine ⟨_, orderByCreatedDesc_perm ext.tie MoodRow.created_at MoodRow.id _,
        orderByCreatedDesc_newestFirst ext.tie MoodRow.created_at MoodRow.id _, ?_⟩
      rw [getMoods_ok ext db sess uid hsess huid hdb]
      rfl
    · refine ⟨_, orderByCreatedDesc_perm ext.tie MessageRow.created_at MessageRow.id _,
        orderByCreatedDesc_newestFirst ext.tie MessageRow.created_at MessageRow.id _, ?_⟩
      rw [getMessages_ok ext db sess uid hsess huid hdb]
      rfl
  · intro hquery hdb
    refine ⟨_, orderByCreatedDesc_perm ext.tie ResourceRow.created_at ResourceRow.id _,
      orderByCreatedDesc_newestFirst ext.tie ResourceRow.created_at ResourceRow.id _, ?_⟩
    rw [getResources_ok ext db sess query hquery hdb]
    rfl

/-! ## C14 and C15: POST /api/messages -/

theorem jsLength_eq_zero (s : String) : JSVal.jsLength s = 0 ↔ s.toList = [] := by
  constructor
  · intro h
    cases hl : s.toList with
    | nil => rfl
    | cons c cs =>
      simp only [JSVal.jsLength, hl, List.map_cons, List.sum_cons] at h
      split at h <;> omega
  · intro h
    simp only [JSVal.jsLength, h, List.map_nil, List.sum_nil]

theorem dropWhile_reverse_dropWhile_eq_nil {α : Type} (p : α → Bool) (l : List α) :
    (l.dropWhile p).reverse.dropWhile p = [] ↔ ∀ x ∈ l, p x = true := by
  constructor
  · intro h
    have hall : ∀ x ∈ l.dropWhile p, p x = true := by
      intro x hx
      exact (List.dropWhile_eq_nil_iff.mp h) x (List.mem_reverse.mpr hx)
    have hnil : l.dropWhile p = [] := by
      by_contra hne
      have hhead := List.head_dropWhile_not p l hne
      have := hall _ (List.head_mem hne)
      rw [hhead] at this
      exact Bool.noConfusion this
    exact List.dropWhile_eq_nil_iff.mp hnil
  · intro h
    have hnil : l.dropWhile p = [] := List.dropWhile_eq_nil_iff.mpr h
    simp [hnil]

theorem jsTrim_length_zero_iff (s : String) :
    (JSVal.jsLength (JSVal.jsTrim s) == 0) = true
      ↔ ∀ c ∈ s.toList, JSVal.isJsSpace c = true := by
  rw [beq_iff_eq, jsLength_eq_zero]
  have : (JSVal.jsTrim s).toList
      = ((s.toList.dropWhile JSVal.isJsSpace).reverse.dropWhile JSVal.isJsSpace).reverse := rfl
  rw [this, List.reverse_eq_nil_iff]
  exact dropWhile_reverse_dropWhile_eq_nil JSVal.isJsSpace s.toList

theorem jsTrim_length_nonzero (s : String) (c : Char) (hc : c ∈ s.toList)
    (hns : JSVal.isJsSpace c = false) : (JSVal.jsLength (JSVal.jsTrim s) == 0) = false := by
  cases h : (JSVal.jsLength (JSVal.jsTrim s) == 0) with
  | false => rfl
  | true =>
    have := (jsTrim_length_zero_iff s).mp h c hc
    rw [hns] at this
    exact Bool.noConfusion this

theorem str_truthy_of_mem (s : String) (c : Char) (hc : c ∈ s.toList) :
    (JSVal.str s).truthy = true := by
  have : s ≠ "" := by
    rintro rfl
    simp at hc
  simpa [JSVal.truthy] using this

theorem postMessages_passes_validation (ext : Ext) (db : Db) (sess : Session) (body : JSVal)
    (m r : String) (hm : body.prop "message" = .str m) (hr : body.prop "response" = .str r)
    (hmc : ∃ c ∈ m.toList, JSVal.isJsSpace c = false)
    (hrc : ∃ c ∈ r.toList, JSVal.isJsSpace c = false) :
    postMessages ext db sess body =
      if ext.dbFails 0 then
        ⟨⟨500, .obj [("success", .bool false),
          ("error", .str "Internal server error. Could not store message.")]⟩, db, sess,
          [.query "INSERT INTO messages (user_id, message, response) VALUES (?, ?, ?)"]⟩
      else if ext.dbFails 1 then
        ⟨⟨500, .obj [("success", .bool false),
          ("error", .str "Internal server error. Could not store message.")]⟩,
          { db with messages := db.messages ++ [⟨nextId (db.messages.map (fun x => x.id)),
            if sess.hasUser then sess.userId else none, m, r, ext.now⟩] }, sess,
          [.query "INSERT INTO messages (user_id, message, response) VALUES (?, ?, ?)",
            .query "SELECT * FROM messages WHERE id = ?"]⟩
      else
        ⟨⟨201, .obj [("success", .bool true), ("message", .str "Message stored successfully."),
          ("data", MessageRow.toJS ⟨nextId (db.messages.map (fun x => x.id)),
            if sess.hasUser then sess.userId else none, m, r, ext.now⟩)]⟩,
          { db with messages := db.messages ++ [⟨nextId (db.messages.map (fun x => x.id)),
            if sess.hasUser then sess.userId else none, m, r, ext.now⟩] }, sess,
          [.query "INSERT INTO messages (user_id, message, response) VALUES (?, ?, ?)",
            .query "SELECT * FROM messages WHERE id = ?"]⟩ := by
  obtain ⟨c, hc, hcs⟩ := hmc
  obtain ⟨d, hd, hds⟩ := hrc
  have hobj : body.isNullish = false :=
    JSVal.isNullish_of_prop_ne_undefined body "message" (by rw [hm]; simp)
  have hmt := str_truthy_of_mem m c hc
  have hrt := str_truthy_of_mem r d hd
  have hml := jsTrim_length_nonzero m c hc hcs
  have hrl := jsTrim_length_nonzero r d hd hds
  have hcreated := filter_id_append_fresh (fun x : MessageRow => x.id) db.messages
    ⟨nextId (db.messages.map (fun x => x.id)), if sess.hasUser then sess.userId else none,
      m, r, ext.now⟩ (nextId_fresh (fun x : MessageRow => x.id) db.messages)
  simp only [postMessages, hobj, hm, hr, hmt, hrt, JSVal.typeOf, JSVal.asString, hml, hrl,
    bindText]
  simp [hcreated]

theorem postMessages_status (ext : Ext) (db : Db) (sess : Session) (body : JSVal) :
    (postMessages ext db sess body).resp.status = 201
      ∨ (postMessages ext db sess body).resp.status = 400
      ∨ (postMessages ext db sess body).resp.status = 500 := by
  simp only [postMessages]
  repeat' split
  all_goals first
    | exact Or.inl rfl
    | exact Or.inr (Or.inl rfl)
    | exact Or.inr (Or.inr rfl)

/-- C14 counterexample: a body whose message is one space and whose response
is "hi", both non-empty strings, is answered 400 and no row is inserted. -/
theorem postMessages_rejects_blank_message :
    (postMessages sampleExt sampleDb Session.empty
        (.obj [("message", .str " "), ("response", .str "hi")])).resp
      = ⟨400, .obj [("success", .bool false),
          ("error", .str "Message and response cannot be empty.")]⟩
      ∧ (postMessages sampleExt sampleDb Session.empty
        (.obj [("message", .str " "), ("response", .str "hi")])).db.messages = []
      ∧ " " ≠ "" ∧ "hi" ≠ "" := by
  refine ⟨?_, ?_, by decide, by decide⟩ <;> rfl

/-- C14 amended: POST /api/messages never answers 401, whatever the session
and the body.  For every session and every body whose message and response
are strings with at least one non-whitespace character (both statements
returning) it answers 201 with the created row and appends exactly one row to
messages, with a fresh id and the message and response as sent; the user_id of
that row is the userId of the session when the session holds one, and NULL
otherwise. -/
theorem postMessages_needs_no_session (ext : Ext) (db : Db) (sess : Session) (body : JSVal)
    (m r : String) (hm : body.prop "message" = .str m) (hr : body.prop "response" = .str r)
    (hmc : ∃ c ∈ m.toList, JSVal.isJsSpace c = false)
    (hrc : ∃ c ∈ r.toList, JSVal.isJsSpace c = false)
    (hins : ext.dbFails 0 = false) (hsel : ext.dbFails 1 = false) :
    (postMessages ext db sess body).resp = ⟨201, .obj [("success", .bool true),
        ("message", .str "Message stored successfully."),
        ("data", MessageRow.toJS ⟨nextId (db.messages.map (fun x => x.id)),
          if sess.hasUser then sess.userId else none, m, r, ext.now⟩)]⟩
      ∧ (postMessages ext db sess body).db.messages = db.messages ++
          [⟨nextId (db.messages.map (fun x => x.id)),
            if sess.hasUser then sess.userId else none, m, r, ext.now⟩]
      ∧ (∀ x ∈ db.messages, x.id ≠ nextId (db.messages.map (fun x => x.id)))
      ∧ (∀ uid, sess.userId = some uid → uid ≠ 0 →
          (if sess.hasUser then sess.userId else none) = some uid)
      ∧ (sess.hasUser = false → (if sess.hasUser then sess.userId else none) = none)
      ∧ (∀ (ext2 : Ext) (db2 : Db) (sess2 : Session) (body2 : JSVal),
          (postMessages ext2 db2 sess2 body2).resp.status ≠ 401) := by
  have hres := postMessages_passes_validation ext db sess body m r hm hr hmc hrc
  simp only [hins, hsel, Bool.false_eq_true, if_false] at hres
  rw [hres]
  refine ⟨rfl, rfl, nextId_fresh (fun x : MessageRow => x.id) db.messages, ?_, ?_, ?_⟩
  · intro uid hsess huid
    simp [hasUser_of_userId sess uid hsess huid, hsess]
  · intro hanon
    simp [hanon]
  · intro ext2 db2 sess2 body2
    rcases postMessages_status ext2 db2 sess2 body2 with h | h | h <;> omega

/-- C14 witness: an exchange stored without a session has NULL as user_id. -/
theorem postMessages_needs_no_session_witness :
    (postMessages sampleExt sampleDb Session.empty
      (.obj [("message", .str "I feel anxious"), ("response", .str "I hear you")])).db.messages
        = [⟨1, none, "I feel anxious", "I hear you", 1000⟩] :=
  (postMessages_needs_no_session sampleExt sampleDb Session.empty
    (.obj [("message", .str "I feel anxious"), ("response", .str "I hear you")])
    "I feel anxious" "I hear you" rfl rfl
    ⟨('I' : Char), by decide, by decide⟩ ⟨('I' : Char), by decide, by decide⟩ rfl rfl).2.1

theorem JSVal.eq_str_of_typeOf (v : JSVal) (h : v.typeOf = "string") : ∃ t, v = .str t := by
  cases v <;> simp [JSVal.typeOf] at h
  exact ⟨_, rfl⟩

/-- C15: on a body that is an object, when message or response is missing or
not of type string, or is a string whose characters are all white space (the
empty string included), POST /api/messages answers 400 with success false,
issues no statement and inserts no row.  When both are strings with at least
one non-whitespace character the handler passes validation: the first thing
it does is the INSERT, the answer is 201 or 500, never 400, and the row the
INSERT stores has the message and the response as sent, untrimmed. -/
theorem postMessages_validation (ext : Ext) (db : Db) (sess : Session) (body : JSVal)
    (hobj : body.isNullish = false) :
    (((body.prop "message").typeOf ≠ "string" ∨ (body.prop "response").typeOf ≠ "string"
        ∨ (∃ t, body.prop "message" = .str t ∧ ∀ c ∈ t.toList, JSVal.isJsSpace c = true)
        ∨ (∃ t, body.prop "response" = .str t ∧ ∀ c ∈ t.toList, JSVal.isJsSpace c = true)) →
      (postMessages ext db sess body).resp.status = 400
        ∧ (postMessages ext db sess body).resp.body.prop "success" = .bool false
        ∧ (postMessages ext db sess body).db = db
        ∧ (postMessages ext db sess body).trace = [])
    ∧ (∀ m r, body.prop "message" = .str m → body.prop "response" = .str r →
        (∃ c ∈ m.toList, JSVal.isJsSpace c = false) →
        (∃ c ∈ r.toList, JSVal.isJsSpace c = false) →
        (postMessages ext db sess body).trace.head?
            = some (.query "INSERT INTO messages (user_id, message, response) VALUES (?, ?, ?)")
          ∧ ((postMessages ext db sess body).resp.status = 201
            ∨ (postMessages ext db sess body).resp.status = 500)
          ∧ (ext.dbFails 0 = false →
            (postMessages ext db sess body).db.messages = db.messages ++
              [⟨nextId (db.messages.map (fun x => x.id)),
                if sess.hasUser then sess.userId else none, m, r, ext.now⟩])) := by
  constructor
  · intro hbad
    have key : ∃ msg, postMessages ext db sess body
        = ⟨⟨400, .obj [("success", .bool false), ("error", .str msg)]⟩, db, sess, []⟩ := by
      by_cases c1 : (!(body.prop "message").truthy || !(body.prop "response").truthy) = true
      · exact ⟨"Missing required fields. Please provide message and response.", by
          simp only [postMessages, hobj, c1]; simp⟩
      by_cases c2 : ((body.prop "message").typeOf != "string"
          || (body.prop "response").typeOf != "string") = true
      · exact ⟨"Message and response must be strings.", by
          simp only [postMessages, hobj, c1, c2]; simp⟩
      have c3 : (JSVal.jsLength (JSVal.jsTrim (body.prop "message").asString) == 0
          || JSVal.jsLength (JSVal.jsTrim (body.prop "response").asString) == 0) = true := by
        simp only [Bool.or_eq_true, bne_iff_ne, ne_eq, not_or, not_not] at c2
        rcases hbad with h | h | ⟨t, ht, hall⟩ | ⟨t, ht, hall⟩
        · exact absurd c2.1 h
        · exact absurd c2.2 h
        · rw [ht, Bool.or_eq_true]
          exact Or.inl ((jsTrim_length_zero_iff t).mpr hall)
        · rw [ht, Bool.or_eq_true]
          exact Or.inr ((jsTrim_length_zero_iff t).mpr hall)
      exact ⟨"Message and response cannot be empty.", by
        simp only [postMessages, hobj, c1, c2, c3]; simp⟩
    obtain ⟨msg, hres⟩ := key
    rw [hres]
    exact ⟨rfl, rfl, rfl, rfl⟩
  · intro m r hm hr hmc hrc
    rw [postMessages_passes_validation ext db sess body m r hm hr hmc hrc]
    cases h0 : ext.dbFails 0 <;> cases h1 : ext.dbFails 1 <;> simp

/-- C15 witness: a message of blanks only is rejected. -/
theorem postMessages_validation_witness :
    (postMessages sampleExt sampleDb annSession
      (.obj [("message", .str "  "), ("response", .str "hi")])).resp.status = 400 :=
  ((postMessages_validation sampleExt sampleDb annSession
    (.obj [("message", .str "  "), ("response", .str "hi")]) rfl).1
    (Or.inr (Or.inr (Or.inl ⟨"  ", rfl, by decide⟩)))).1

/-! ## C16 and C17: resources -/

/-- C16 counterexample: a request with the category parameter present and
empty (`?category=`) gets both rows of the table, although no row has the
empty string as category. -/
theorem getResources_empty_category_lists_all :
    (getResources sampleExt sameSecondDb Session.empty
        (.obj [("category", .str "")])).resp.body.prop "count" = .num (JSNum.ofNat 2)
      ∧ (getResources sampleExt sameSecondDb Session.empty
        (.obj [("category", .str "")])).resp.body.prop "resources"
        = .arr [ResourceRow.toJS ⟨1, "Self-Care Guide", "Practical tips",
              "https://www.mind.org.uk", "self-care", 1000⟩,
            ResourceRow.toJS ⟨2, "Crisis Resources", "Immediate help",
              "https://988lifeline.org/", "crisis", 1000⟩]
      ∧ (JSVal.obj [("category", .str "")]).prop "category" = .str ""
      ∧ ∀ r ∈ sameSecondDb.resources, r.category ≠ "" := by
  refine ⟨?_, ?_, rfl, by decide⟩
  · rw [getResources_ok sampleExt sameSecondDb Session.empty
      (.obj [("category", .str "")]) rfl rfl]
    rfl
  · rw [getResources_ok sampleExt sameSecondDb Session.empty
      (.obj [("category", .str "")]) rfl rfl]
    rfl

/-- C16 amended: GET /api/resources needs no session: for every session and
every resources table (the statement returning) it answers 200.  Without a
category parameter, or with an empty one, it returns all rows; with a
non-empty category parameter c it returns, up to order, exactly the rows
whose category equals c.  In both cases count is the number of returned rows
and the tables and the session are unchanged. -/
theorem getResources_filters_by_category (ext : Ext) (db : Db) (sess : Session)
    (query : JSVal) (hquery : query.isNullish = false) (hdb : ext.dbFails 0 = false) :
    ((query.prop "category").truthy = false →
        ∃ rows : List ResourceRow, rows.Perm db.resources
          ∧ (getResources ext db sess query).resp = ⟨200, .obj [("success", .bool true),
              ("count", .num (JSNum.ofNat rows.length)),
              ("resources", .arr (rows.map ResourceRow.toJS))]⟩)
    ∧ (∀ c, query.prop "category" = .str c → c ≠ "" →
        ∃ rows : List ResourceRow,
          rows.Perm (db.resources.filter (fun r => r.category == c))
            ∧ (∀ r ∈ rows, r.category = c)
            ∧ (getResources ext db sess query).resp = ⟨200, .obj [("success", .bool true),
                ("count", .num (JSNum.ofNat rows.length)),
                ("resources", .arr (rows.map ResourceRow.toJS))]⟩)
    ∧ (getResources ext db sess query).db = db
    ∧ (getResources ext db sess query).session = sess := by
  rw [getResources_ok ext db sess query hquery hdb]
  refine ⟨?_, ?_, rfl, rfl⟩
  · intro hnone
    refine ⟨orderByCreatedDesc ext.tie ResourceRow.created_at ResourceRow.id db.resources,
      orderByCreatedDesc_perm ext.tie ResourceRow.created_at ResourceRow.id _, ?_⟩
    simp [hnone]
  · intro c hc hne
    have htr : (JSVal.str c).truthy = true := by simpa [JSVal.truthy] using hne
    refine ⟨orderByCreatedDesc ext.tie ResourceRow.created_at ResourceRow.id
        (db.resources.filter (fun r => r.category == c)),
      orderByCreatedDesc_perm ext.tie ResourceRow.created_at ResourceRow.id _, ?_, ?_⟩
    · intro r hr
      have hmem :=
        (orderByCreatedDesc_perm ext.tie ResourceRow.created_at ResourceRow.id _).subset hr
      simpa using (List.mem_filter.mp hmem).2
    · simp [hc, htr, bindText]

/-- C16 witness: the resources of category crisis. -/
theorem getResources_filters_by_category_witness :
    ∃ rows : List ResourceRow,
      rows.Perm (sameSecondDb.resources.filter (fun r => r.category == "crisis"))
        ∧ (∀ r ∈ rows, r.category = "crisis")
        ∧ (getResources sampleExt sameSecondDb Session.empty
            (.obj [("category", .str "crisis")])).resp = ⟨200, .obj [("success", .bool true),
              ("count", .num (JSNum.ofNat rows.length)),
              ("resources", .arr (rows.map ResourceRow.toJS))]⟩ :=
  (getResources_filters_by_category sampleExt sameSecondDb Session.empty
    (.obj [("category", .str "crisis")]) rfl rfl).2.1 "crisis" rfl (by decide)

theorem seedResources_of_nonempty (ext : Ext) (db : Db) (h : db.resources ≠ []) :
    (seedResources ext db).1 = db := by
  have hpos : db.resources.length > 0 := List.length_pos.mpr h
  simp only [seedResources]
  split
  · rfl
  · split
    · rfl
    · simp [hpos]

theorem seedResources_of_no_rows (ext : Ext) (db : Db)
    (h : (seedResources ext db).1.resources = []) : (seedResources ext db).1 = db := by
  by_cases hne : db.resources = []
  · have hlen : ¬ db.resources.length > 0 := by simp [hne]
    simp only [seedResources] at h ⊢
    split
    · rfl
    · split
      · rfl
      · rename_i h0 h1
        simp only [h0, h1, hlen, if_false] at h
        simp only [hlen, if_false]
        cases db
        simp_all
  · exact seedResources_of_nonempty ext db hne

/-- C17: seeding is idempotent.  On a table that is not empty seedResources
changes nothing, whatever the environment.  On an empty table, when no call
fails, it leaves exactly 9 rows, with ids 1 to 9, which carry the title,
description, link and category of the 9 records of initialResources in their
order, and it changes no other table.  Running it again after a first run
leaves the tables of the first run: in the same environment always, and in
any environment as soon as the first run left a row. -/
theorem seedResources_idempotent (ext : Ext) (db : Db) :
    (db.resources ≠ [] → (seedResources ext db).1 = db)
    ∧ (db.resources = [] → (∀ n, ext.dbFails n = false) →
        (seedResources ext db).1.resources.map
            (fun r => (⟨r.title, r.description, r.link, r.category⟩ : Resource))
          = initialResources
        ∧ (seedResources ext db).1.resources.map (fun r => r.id) = [1, 2, 3, 4, 5, 6, 7, 8, 9]
        ∧ (seedResources ext db).1.resources.length = 9
        ∧ (seedResources ext db).1.users = db.users
        ∧ (seedResources ext db).1.moods = db.moods
        ∧ (seedResources ext db).1.messages = db.messages)
    ∧ (seedResources ext (seedResources ext db).1).1 = (seedResources ext db).1
    ∧ (∀ ext2 : Ext, (seedResources ext db).1.resources ≠ [] →
        (seedResources ext2 (seedResources ext db).1).1 = (seedResources ext db).1) := by
  refine ⟨seedResources_of_nonempty ext db, ?_, ?_, ?_⟩
  · intro hempty hok
    simp [seedResources, seedInsertAll, initialResources, hempty, hok, nextId]
  · by_cases h : (seedResources ext db).1.resources = []
    · have hsame := seedResources_of_no_rows ext db h
      rw [hsame]
      exact hsame
    · exact seedResources_of_nonempty ext _ h
  · intro ext2 h
    exact seedResources_of_nonempty ext2 _ h

/-- C17 witness: seeding the empty resources table of the sample database. -/
theorem seedResources_idempotent_witness :
    (seedResources sampleExt sampleDb).1.resources.map (fun r => r.id)
      = [1, 2, 3, 4, 5, 6, 7, 8, 9] :=
  ((seedResources_idempotent sampleExt sampleDb).2.1 rfl (fun _ => rfl)).2.1

/-! ## C18 to C20: POST /api/chat -/

theorem postChat_calls_upstream (cfg : Config) (ext : Ext) (db : Db) (sess : Session)
    (body : JSVal) (t : String) (hm : body.prop "message" = .str t)
    (hc : ∃ c ∈ t.toList, JSVal.isJsSpace c = false)
    (hkey : envSet cfg.OPENROUTER_API_KEY = true) :
    postChat cfg ext db sess body =
      match ext.axiosPost (chatCall cfg t) with
      | .error error => ⟨chatCatch error, db, sess, [.upstream (chatCall cfg t)]⟩
      | .ok data =>
        if data.isNullish then
          ⟨chatCatch typeError, db, sess, [.upstream (chatCall cfg t)]⟩
        else if (data.prop "choices").isNullish then
          ⟨chatCatch typeError, db, sess, [.upstream (chatCall cfg t)]⟩
        else
          ⟨⟨200, .obj [("success", .bool true),
            ("reply", ((((data.prop "choices").index 0).optProp "message").optProp "content").or
              (.str "I apologize, but I could not generate a response. Please try again."))]⟩,
            db, sess, [.upstream (chatCall cfg t)]⟩ := by
  obtain ⟨c, hmem, hcs⟩ := hc
  have hobj : body.isNullish = false :=
    JSVal.isNullish_of_prop_ne_undefined body "message" (by rw [hm]; simp)
  have htr := str_truthy_of_mem t c hmem
  have hlen := jsTrim_length_nonzero t c hmem hcs
  simp only [postChat, hobj, hm, htr, JSVal.typeOf, JSVal.asString, hlen, hkey, chatCall]
  simp

/-- C18: on a body that is an object, POST /api/chat answers 400 "Message is
required" when message is missing or not of type string, or is a string whose
characters are all white space (the empty string included), whether or not a
provider credential is configured.  When message is a string with a
non-whitespace character and OPENROUTER_API_KEY is unset or empty, it answers
500 "AI service not configured".  In both cases no upstream call is made. -/
theorem postChat_validation_then_config (cfg : Config) (ext : Ext) (db : Db) (sess : Session)
    (body : JSVal) (hobj : body.isNullish = false) :
    (((body.prop "message").typeOf ≠ "string"
        ∨ ∃ t, body.prop "message" = .str t ∧ ∀ c ∈ t.toList, JSVal.isJsSpace c = true) →
      (postChat cfg ext db sess body).resp = ⟨400, .obj [("error", .str "Message is required")]⟩
        ∧ (postChat cfg ext db sess body).trace = [])
    ∧ (∀ t, body.prop "message" = .str t → (∃ c ∈ t.toList, JSVal.isJsSpace c = false) →
        envSet cfg.OPENROUTER_API_KEY = false →
        (postChat cfg ext db sess body).resp
            = ⟨500, .obj [("error", .str "AI service not configured")]⟩
          ∧ (postChat cfg ext db sess body).trace = []) := by
  constructor
  · intro hbad
    have hcond : (!(body.prop "message").truthy || (body.prop "message").typeOf != "string"
        || JSVal.jsLength (JSVal.jsTrim (body.prop "message").asString) == 0) = true := by
      rcases hbad with hty | ⟨t, ht, hall⟩
      · simp [hty]
      · rw [ht]
        simp only [JSVal.asString, Bool.or_eq_true]
        exact Or.inr ((jsTrim_length_zero_iff t).mpr hall)
    simp only [postChat, hobj, hcond]
    simp
  · intro t ht hc hkey
    obtain ⟨c, hmem, hcs⟩ := hc
    have htr := str_truthy_of_mem t c hmem
    have hlen := jsTrim_length_nonzero t c hmem hcs
    simp only [postChat, hobj, ht, htr, JSVal.typeOf, JSVal.asString, hlen, hkey]
    simp

/-- C18 witness: "I feel anxious" with no credential configured. -/
theorem postChat_validation_then_config_witness :
    (postChat ⟨none, none, none, none, none⟩ sampleExt sampleDb Session.empty
      (.obj [("message", .str "I feel anxious")])).resp
      = ⟨500, .obj [("error", .str "AI service not configured")]⟩ :=
  ((postChat_validation_then_config ⟨none, none, none, none, none⟩ sampleExt sampleDb
    Session.empty (.obj [("message", .str "I feel anxious")]) rfl).2 "I feel anxious" rfl
    ⟨('I' : Char), by decide, by decide⟩ rfl).1

/-- C19: when the upstream call of POST /api/chat ends in an error that
carries a response with a status s from 400 to 499, the answer has the same
status s and, as error, data.error.message when that is truthy, else
data.error when that is truthy, else "AI service error"; a response with any
other status is answered 500.  An error without response but with the request
set is answered 503.  Any other exception, one with neither response nor
request and without the timeout code, such as a TypeError thrown in the
handler, is answered 500. -/
theorem postChat_upstream_error_mapping (cfg : Config) (ext : Ext) (db : Db) (sess : Session)
    (body : JSVal) (t : String) (e : AxiosError)
    (hm : body.prop "message" = .str t)
    (hc : ∃ c ∈ t.toList, JSVal.isJsSpace c = false)
    (hkey : envSet cfg.OPENROUTER_API_KEY = true)
    (herr : ext.axiosPost (chatCall cfg t) = .error e) :
    (∀ s data, e.response = some (s, data) → 400 ≤ s → s ≤ 499 →
        (postChat cfg ext db sess body).resp = ⟨s, .obj [("success", .bool false),
          ("error", (((data.optProp "error").optProp "message").or (data.optProp "error")).or
            (.str "AI service error"))]⟩)
    ∧ (∀ data : JSVal,
        (((data.optProp "error").optProp "message").truthy = true →
          (((data.optProp "error").optProp "message").or (data.optProp "error")).or
              (.str "AI service error") = (data.optProp "error").optProp "message")
        ∧ (((data.optProp "error").optProp "message").truthy = false →
            (data.optProp "error").truthy = true →
          (((data.optProp "error").optProp "message").or (data.optProp "error")).or
              (.str "AI service error") = data.optProp "error")
        ∧ (((data.optProp "error").optProp "message").truthy = false →
            (data.optProp "error").truthy = false →
          (((data.optProp "error").optProp "message").or (data.optProp "error")).or
              (.str "AI service error") = .str "AI service error"))
    ∧ (∀ s data, e.response = some (s, data) → (s < 400 ∨ 500 ≤ s) →
        (postChat cfg ext db sess body).resp.status = 500)
    ∧ (e.response = none → e.request = true →
        (postChat cfg ext db sess body).resp.status = 503)
    ∧ (e.response = none → e.request = false → e.code ≠ some "ECONNABORTED" →
        (postChat cfg ext db sess body).resp.status = 500)
    ∧ (chatCatch typeError).status = 500 := by
  have hres : postChat cfg ext db sess body
      = ⟨chatCatch e, db, sess, [.upstream (chatCall cfg t)]⟩ := by
    rw [postChat_calls_upstream cfg ext db sess body t hm hc hkey, herr]
  rw [hres]
  refine ⟨?_, ?_, ?_, ?_, ?_, rfl⟩
  · intro s data hresp h4 h5
    have hrange : (decide (s ≥ 400) && decide (s < 500)) = true := by
      simp only [Bool.and_eq_true, decide_eq_true_eq]
      omega
    simp [chatCatch, hresp, hrange]
  · intro data
    refine ⟨?_, ?_, ?_⟩
    · intro h1
      simp [JSVal.or, h1]
    · intro h1 h2
      simp [JSVal.or, h1, h2]
    · intro h1 h2
      have h3 : (JSVal.str "AI service error").truthy = true := rfl
      simp [JSVal.or, h1, h2]
  · intro s data hresp hout
    have hrange : (decide (s ≥ 400) && decide (s < 500)) = false := by
      rcases hout with h | h
      · simp only [Bool.and_eq_false_iff, decide_eq_false_iff_not]
        left; omega
      · simp only [Bool.and_eq_false_iff, decide_eq_false_iff_not]
        right; omega
    simp [chatCatch, hresp, hrange]
  · intro hresp hreq
    simp [chatCatch, hresp, hreq]
  · intro hresp hreq hcode
    simp [chatCatch, hresp, hreq, hcode]

/-- C19 witness: the upstream answers 429 "Rate limit exceeded". -/
theorem postChat_upstream_error_mapping_witness :
    (postChat sampleCfg rateLimitedExt sampleDb Session.empty
      (.obj [("message", .str "I feel anxious")])).resp
      = ⟨429, .obj [("success", .bool false), ("error", .str "Rate limit exceeded")]⟩ :=
  (postChat_upstream_error_mapping sampleCfg rateLimitedExt sampleDb Session.empty
    (.obj [("message", .str "I feel anxious")]) "I feel anxious"
    ⟨some (429, .obj [("error", .obj [("message", .str "Rate limit exceeded")])]), true, none⟩
    rfl ⟨('I' : Char), by decide, by decide⟩ rfl rfl).1 429
    (.obj [("error", .obj [("message", .str "Rate limit exceeded")])]) rfl (by decide)
    (by decide)

/-- C20: the failing input evaluated.  The credential is configured, the
message is valid and the upstream call ends in the timeout of the HTTP client
(request set, no response, code ECONNABORTED): the answer is 503, the branch
for an error with a request, and not the 504 of the timeout branch below it. -/
theorem postChat_timeout_answered_503 :
    (postChat sampleCfg timeoutExt sampleDb Session.empty
      (.obj [("message", .str "I feel anxious")])).resp
      = ⟨503, .obj [("success", .bool false),
          ("error", .str "AI service is temporarily unavailable. Please try again later.")]⟩
      ∧ (postChat sampleCfg timeoutExt sampleDb Session.empty
        (.obj [("message", .str "I feel anxious")])).resp.status ≠ 504 := by
  have hres := postChat_calls_upstream sampleCfg timeoutExt sampleDb Session.empty
    (.obj [("message", .str "I feel anxious")]) "I feel anxious" rfl
    ⟨('I' : Char), by decide, by decide⟩ rfl
  rw [hres]
  exact ⟨rfl, by decide⟩

/-! ## C21 and C22: the reply of the chat, the contact form -/

theorem postChat_reply_or_fallback (cfg : Config) (ext : Ext) (db : Db) (sess : Session)
    (body : JSVal) (t : String) (data : JSVal) (hm : body.prop "message" = .str t)
    (hc : ∃ c ∈ t.toList, JSVal.isJsSpace c = false)
    (hkey : envSet cfg.OPENROUTER_API_KEY = true)
    (hok : ext.axiosPost (chatCall cfg t) = .ok data)
    (hdata : data.isNullish = false) (hchoices : (data.prop "choices").isNullish = false) :
    (postChat cfg ext db sess body).resp = ⟨200, .obj [("success", .bool true),
      ("reply", ((((data.prop "choices").index 0).optProp "message").optProp "content").or
        (.str "I apologize, but I could not generate a response. Please try again."))]⟩ := by
  rw [postChat_calls_upstream cfg ext db sess body t hm hc hkey, hok]
  simp [hdata, hchoices]

/-- C21: the failing input evaluated.  The credential is configured, the
message is valid and the upstream answers 200 with a body without `choices`:
reading `choices[0]` throws, and the answer is 500 "An unexpected error
occurred. Please try again." instead of 200 with the fallback reply.  With an
empty list of choices the answer is 200 with the fallback reply. -/
theorem postChat_no_choices_answered_500 :
    (postChat sampleCfg noChoicesExt sampleDb Session.empty
      (.obj [("message", .str "I feel anxious")])).resp
      = ⟨500, .obj [("success", .bool false),
          ("error", .str "An unexpected error occurred. Please try again.")]⟩
      ∧ (postChat sampleCfg emptyChoicesExt sampleDb Session.empty
        (.obj [("message", .str "I feel anxious")])).resp
        = ⟨200, .obj [("success", .bool true), ("reply",
            .str "I apologize, but I could not generate a response. Please try again.")]⟩ := by
  constructor
  · rw [postChat_calls_upstream sampleCfg noChoicesExt sampleDb Session.empty
      (.obj [("message", .str "I feel anxious")]) "I feel anxious" rfl
      ⟨('I' : Char), by decide, by decide⟩ rfl]
    rfl
  · rw [postChat_calls_upstream sampleCfg emptyChoicesExt sampleDb Session.empty
      (.obj [("message", .str "I feel anxious")]) "I feel anxious" rfl
      ⟨('I' : Char), by decide, by decide⟩ rfl]
    rfl

/-- C22: the failing input evaluated.  No SMTP credential is configured and
the four fields are present, the message being the number 42: building the
mail calls `message.replace`, which throws, and the answer is 500 "Server
error sending message" instead of 200; no mail is sent.  With the message
"hello" the answer is 200 with the generic success message. -/
theorem postContact_number_message_answered_500 :
    (postContact emptyCfg sampleExt sampleDb Session.empty
      (.obj [("name", .str "Ann"), ("email", .str "a@x.com"), ("subject", .str "Hi"),
        ("message", .num (.fin 42))])).resp
      = ⟨500, .obj [("error", .str "Server error sending message")]⟩
      ∧ (postContact emptyCfg sampleExt sampleDb Session.empty
        (.obj [("name", .str "Ann"), ("email", .str "a@x.com"), ("subject", .str "Hi"),
          ("message", .num (.fin 42))])).trace = []
      ∧ (postContact emptyCfg sampleExt sampleDb Session.empty
        (.obj [("name", .str "Ann"), ("email", .str "a@x.com"), ("subject", .str "Hi"),
          ("message", .str "hello")])).resp
        = ⟨200, .obj [("success", .bool true), ("message",
            .str "Thank you for your message! We will get back to you soon.")]⟩ := by
  have hprop : ∀ v : JSVal, (JSVal.obj [("name", .str "Ann"), ("email", .str "a@x.com"),
      ("subject", .str "Hi"), ("message", v)]).prop "message" = v := fun _ => rfl
  have hname : ∀ v : JSVal, (JSVal.obj [("name", .str "Ann"), ("email", .str "a@x.com"),
      ("subject", .str "Hi"), ("message", v)]).prop "name" = .str "Ann" := fun _ => rfl
  have hemail : ∀ v : JSVal, (JSVal.obj [("name", .str "Ann"), ("email", .str "a@x.com"),
      ("subject", .str "Hi"), ("message", v)]).prop "email" = .str "a@x.com" := fun _ => rfl
  have hsubject : ∀ v : JSVal, (JSVal.obj [("name", .str "Ann"), ("email", .str "a@x.com"),
      ("subject", .str "Hi"), ("message", v)]).prop "subject" = .str "Hi" := fun _ => rfl
  have h42 : (JSVal.num (.fin 42)).truthy = true := by norm_num [JSVal.truthy, JSNum.truthy]
  have hn : (JSVal.str "Ann").truthy = true := rfl
  have he : (JSVal.str "a@x.com").truthy = true := rfl
  have hs : (JSVal.str "Hi").truthy = true := rfl
  have hh : (JSVal.str "hello").truthy = true := rfl
  refine ⟨?_, ?_, ?_⟩
  · simp [postContact, JSVal.isNullish, hprop, hname, hemail, hsubject, h42, hn, he, hs, toStr]
  · simp [postContact, JSVal.isNullish, hprop, hname, hemail, hsubject, h42, hn, he, hs, toStr]
  · simp [postContact, JSVal.isNullish, hprop, hname, hemail, hsubject, hh, hn, he, hs, toStr,
      emptyCfg, envSet]

/-! ## C23 and C24: error bodies -/

theorem JSVal.or_truthy (a b : JSVal) (hb : b.truthy = true) : (a.or b).truthy = true := by
  unfold JSVal.or
  split
  · assumption
  · exact hb

theorem chatCatch_body (error : AxiosError) :
    ∃ v : JSVal, v.truthy = true
      ∧ (chatCatch error).body = .obj [("success", .bool false), ("error", v)] := by
  unfold chatCatch
  split
  · refine ⟨_, ?_, rfl⟩
    exact JSVal.or_truthy _ _ rfl
  · split
    · refine ⟨_, ?_, rfl⟩
      rfl
    · split
      · refine ⟨_, ?_, rfl⟩
        rfl
      · refine ⟨_, ?_, rfl⟩
        rfl

theorem signup_envelope (ext : Ext) (db : Db) (sess : Session) (body : JSVal) :
    (signup ext db sess body).resp.status = 200
      ∨ ∃ msg, (signup ext db sess body).resp.body = .obj [("error", .str msg)] := by
  simp only [signup]
  repeat' split
  all_goals first
    | exact Or.inl rfl
    | exact Or.inr ⟨_, rfl⟩

theorem login_envelope (ext : Ext) (db : Db) (sess : Session) (body : JSVal) :
    (login ext db sess body).resp.status = 200
      ∨ ∃ msg, (login ext db sess body).resp.body = .obj [("error", .str msg)] := by
  simp only [login]
  repeat' split
  all_goals first
    | exact Or.inl rfl
    | exact Or.inr ⟨_, rfl⟩

theorem logout_envelope (ext : Ext) (db : Db) (sess : Session) :
    (logout ext db sess).resp.status = 200
      ∨ ∃ msg, (logout ext db sess).resp.body = .obj [("error", .str msg)] := by
  simp only [logout]
  split
  · exact Or.inr ⟨_, rfl⟩
  · exact Or.inl rfl

theorem postContact_envelope (cfg : Config) (ext : Ext) (db : Db) (sess : Session)
    (body : JSVal) :
    (postContact cfg ext db sess body).resp.status = 200
      ∨ ∃ msg, (postContact cfg ext db sess body).resp.body = .obj [("error", .str msg)] := by
  simp only [postContact]
  repeat' split
  all_goals first
    | exact Or.inl rfl
    | exact Or.inr ⟨_, rfl⟩

theorem postMoods_envelope (ext : Ext) (db : Db) (sess : Session) (body : JSVal) :
    (postMoods ext db sess body).resp.status = 201
      ∨ ∃ msg, (postMoods ext db sess body).resp.body
          = .obj [("success", .bool false), ("error", .str msg)] := by
  simp only [postMoods]
  repeat' split
  all_goals first
    | exact Or.inl rfl
    | exact Or.inr ⟨_, rfl⟩

theorem getMoods_envelope (ext : Ext) (db : Db) (sess : Session) :
    (getMoods ext db sess).resp.status = 200
      ∨ ∃ msg, (getMoods ext db sess).resp.body
          = .obj [("success", .bool false), ("error", .str msg)] := by
  simp only [getMoods]
  repeat' split
  all_goals first
    | exact Or.inl rfl
    | exact Or.inr ⟨_, rfl⟩

theorem postMessages_envelope (ext : Ext) (db : Db) (sess : Session) (body : JSVal) :
    (postMessages ext db sess body).resp.status = 201
      ∨ ∃ msg, (postMessages ext db sess body).resp.body
          = .obj [("success", .bool false), ("error", .str msg)] := by
  simp only [postMessages]
  repeat' split
  all_goals first
    | exact Or.inl rfl
    | exact Or.inr ⟨_, rfl⟩

theorem getMessages_envelope (ext : Ext) (db : Db) (sess : Session) :
    (getMessages ext db sess).resp.status = 200
      ∨ ∃ msg, (getMessages ext db sess).resp.body
          = .obj [("success", .bool false), ("error", .str msg)] := by
  simp only [getMessages]
  repeat' split
  all_goals first
    | exact Or.inl rfl
    | exact Or.inr ⟨_, rfl⟩

theorem getResources_envelope (ext : Ext) (db : Db) (sess : Session) (query : JSVal) :
    (getResources ext db sess query).resp.status = 200
      ∨ ∃ msg, (getResources ext db sess query).resp.body
          = .obj [("success", .bool false), ("error", .str msg)] := by
  simp only [getResources]
  repeat' split
  all_goals first
    | exact Or.inl rfl
    | exact Or.inr ⟨_, rfl⟩

theorem postChat_envelope (cfg : Config) (ext : Ext) (db : Db) (sess : Session)
    (body : JSVal) :
    (postChat cfg ext db sess body).resp.status = 200
      ∨ (∃ msg, (postChat cfg ext db sess body).resp.body = .obj [("error", .str msg)])
      ∨ ∃ v : JSVal, v.truthy = true ∧ (postChat cfg ext db sess body).resp.body
          = .obj [("success", .bool false), ("error", v)] := by
  simp only [postChat]
  repeat' split
  all_goals first
    | exact Or.inl rfl
    | exact Or.inr (Or.inl ⟨_, rfl⟩)
    | exact Or.inr (Or.inr (chatCatch_body _))

/-- C23 counterexample: a signup with an empty body is answered 400 with the
body {error: "All fields are required"}, which has no success field. -/
theorem signup_error_body_lacks_success :
    (signup sampleExt sampleDb Session.empty (.obj [])).resp
      = ⟨400, .obj [("error", .str "All fields are required")]⟩
      ∧ (signup sampleExt sampleDb Session.empty (.obj [])).resp.body.prop "success"
        = .undefined
      ∧ (signup sampleExt sampleDb Session.empty (.obj [])).resp.body.keys = ["error"] := by
  refine ⟨?_, ?_, ?_⟩ <;> rfl

/-- C23 amended: every answer of a route handler that is not 2xx has a body
with an error field.  For the moods, messages and resources routes the body
is {success: false, error: message} with a string message.  For the auth and
contact routes the body is {error: message} with a string message and no
success field.  For the chat route the body is {error: message} for the
validation and configuration errors, and {success: false, error: value} for
the errors of the catch block, where value is a string or the error value the
upstream sent.  The status and health routes never answer outside 2xx. -/
theorem error_bodies (cfg : Config) (ext : Ext) (db : Db) (sess : Session) (req : Request)
    (hfail : (handle cfg ext db sess req).resp.status < 200
      ∨ 299 < (handle cfg ext db sess req).resp.status) :
    (handle cfg ext db sess req).resp.body.prop "error" ≠ .undefined
    ∧ (req.route = .postMoods ∨ req.route = .getMoods ∨ req.route = .postMessages
        ∨ req.route = .getMessages ∨ req.route = .getResources →
      ∃ msg, (handle cfg ext db sess req).resp.body
        = .obj [("success", .bool false), ("error", .str msg)])
    ∧ (req.route = .signup ∨ req.route = .login ∨ req.route = .logout
        ∨ req.route = .postContact →
      ∃ msg, (handle cfg ext db sess req).resp.body = .obj [("error", .str msg)])
    ∧ (req.route = .postChat →
      (∃ msg, (handle cfg ext db sess req).resp.body = .obj [("error", .str msg)])
        ∨ ∃ v : JSVal, v.truthy = true ∧ (handle cfg ext db sess req).resp.body
            = .obj [("success", .bool false), ("error", v)])
    ∧ req.route ≠ .status ∧ req.route ≠ .health := by
  obtain ⟨route, body, query⟩ := req
  have hplain : ∀ b : JSVal, (∃ msg, b = .obj [("error", .str msg)]) →
      b.prop "error" ≠ .undefined := by
    rintro b ⟨msg, rfl⟩
    simp [JSVal.prop, List.lookup]
  have hfull : ∀ b : JSVal, (∃ v : JSVal, v.truthy = true
      ∧ b = .obj [("success", .bool false), ("error", v)]) → b.prop "error" ≠ .undefined := by
    rintro b ⟨v, hv, rfl⟩
    have hval : (JSVal.obj [("success", .bool false), ("error", v)]).prop "error" = v := rfl
    rw [hval]
    rintro rfl
    exact Bool.noConfusion hv
  have hstr : ∀ b : JSVal, (∃ msg, b = .obj [("success", .bool false), ("error", .str msg)]) →
      b.prop "error" ≠ .undefined := by
    rintro b ⟨msg, rfl⟩
    simp [JSVal.prop, List.lookup]
  cases route
  case signup =>
    have h := signup_envelope ext db sess body
    have hbody : ∃ msg, (signup ext db sess body).resp.body = .obj [("error", .str msg)] := by
      rcases h with h | h
      · have hs : (signup ext db sess body).resp.status < 200
            ∨ 299 < (signup ext db sess body).resp.status := hfail
        omega
      · exact h
    exact ⟨hplain _ hbody, by simp, fun _ => hbody, by simp, by simp, by simp⟩
  case login =>
    have h := login_envelope ext db sess body
    have hbody : ∃ msg, (login ext db sess body).resp.body = .obj [("error", .str msg)] := by
      rcases h with h | h
      · have hs : (login ext db sess body).resp.status < 200
            ∨ 299 < (login ext db sess body).resp.status := hfail
        omega
      · exact h
    exact ⟨hplain _ hbody, by simp, fun _ => hbody, by simp, by simp, by simp⟩
  case logout =>
    have h := logout_envelope ext db sess
    have hbody : ∃ msg, (logout ext db sess).resp.body = .obj [("error", .str msg)] := by
      rcases h with h | h
      · have hs : (logout ext db sess).resp.status < 200
            ∨ 299 < (logout ext db sess).resp.status := hfail
        omega
      · exact h
    exact ⟨hplain _ hbody, by simp, fun _ => hbody, by simp, by simp, by simp⟩
  case status =>
    have hs : (status db sess).resp.status < 200 ∨ 299 < (status db sess).resp.status := hfail
    have h200 : (status db sess).resp.status = 200 := by
      simp only [status]; split <;> rfl
    omega
  case postMoods =>
    have h := postMoods_envelope ext db sess body
    have hbody : ∃ msg, (postMoods ext db sess body).resp.body
        = .obj [("success", .bool false), ("error", .str msg)] := by
      rcases h with h | h
      · have hs : (postMoods ext db sess body).resp.status < 200
            ∨ 299 < (postMoods ext db sess body).resp.status := hfail
        omega
      · exact h
    exact ⟨hstr _ hbody, fun _ => hbody, by simp, by simp, by simp, by simp⟩
  case getMoods =>
    have h := getMoods_envelope ext db sess
    have hbody : ∃ msg, (getMoods ext db sess).resp.body
        = .obj [("success", .bool false), ("error", .str msg)] := by
      rcases h with h | h
      · have hs : (getMoods ext db sess).resp.status < 200
            ∨ 299 < (getMoods ext db sess).resp.status := hfail
        omega
      · exact h
    exact ⟨hstr _ hbody, fun _ => hbody, by simp, by simp, by simp, by simp⟩
  case postMessages =>
    have h := postMessages_envelope ext db sess body
    have hbody : ∃ msg, (postMessages ext db sess body).resp.body
        = .obj [("success", .bool false), ("error", .str msg)] := by
      rcases h with h | h
      · have hs : (postMessages ext db sess body).resp.status < 200
            ∨ 299 < (postMessages ext db sess body).resp.status := hfail
        omega
      · exact h
    exact ⟨hstr _ hbody, fun _ => hbody, by simp, by simp, by simp, by simp⟩
  case getMessages =>
    have h := getMessages_envelope ext db sess
    have hbody : ∃ msg, (getMessages ext db sess).resp.body
        = .obj [("success", .bool false), ("error", .str msg)] := by
      rcases h with h | h
      · have hs : (getMessages ext db sess).resp.status < 200
            ∨ 299 < (getMessages ext db sess).resp.status := hfail
        omega
      · exact h
    exact ⟨hstr _ hbody, fun _ => hbody, by simp, by simp, by simp, by simp⟩
  case getResources =>
    have h := getResources_envelope ext db sess query
    have hbody : ∃ msg, (getResources ext db sess query).resp.body
        = .obj [("success", .bool false), ("error", .str msg)] := by
      rcases h with h | h
      · have hs : (getResources ext db sess query).resp.status < 200
            ∨ 299 < (getResources ext db sess query).resp.status := hfail
        omega
      · exact h
    exact ⟨hstr _ hbody, fun _ => hbody, by simp, by simp, by simp, by simp⟩
  case postChat =>
    have h := postChat_envelope cfg ext db sess body
    have hbody : (∃ msg, (postChat cfg ext db sess body).resp.body = .obj [("error", .str msg)])
        ∨ ∃ v : JSVal, v.truthy = true ∧ (postChat cfg ext db sess body).resp.body
            = .obj [("success", .bool false), ("error", v)] := by
      rcases h with h | h
      · have hs : (postChat cfg ext db sess body).resp.status < 200
            ∨ 299 < (postChat cfg ext db sess body).resp.status := hfail
        omega
      · exact h
    refine ⟨?_, by simp, by simp, fun _ => hbody, by simp, by simp⟩
    rcases hbody with h1 | h2
    · exact hplain _ h1
    · exact hfull _ h2
  case postContact =>
    have h := postContact_envelope cfg ext db sess body
    have hbody : ∃ msg, (postContact cfg ext db sess body).resp.body
        = .obj [("error", .str msg)] := by
      rcases h with h | h
      · have hs : (postContact cfg ext db sess body).resp.status < 200
            ∨ 299 < (postContact cfg ext db sess body).resp.status := hfail
        omega
      · exact h
    exact ⟨hplain _ hbody, by simp, fun _ => hbody, by simp, by simp, by simp⟩
  case health =>
    have hs : (health db sess).resp.status < 200 ∨ 299 < (health db sess).resp.status := hfail
    have h200 : (health db sess).resp.status = 200 := rfl
    omega

/-- C23 witness: a mood sent without a session. -/
theorem error_bodies_witness :
    ∃ msg, (handle emptyCfg sampleExt sampleDb Session.empty
        ⟨.postMoods, .obj [("mood_level", .num (.fin 3))], .obj []⟩).resp.body
      = .obj [("success", .bool false), ("error", .str msg)] :=
  (error_bodies emptyCfg sampleExt sampleDb Session.empty
    ⟨.postMoods, .obj [("mood_level", .num (.fin 3))], .obj []⟩
    (Or.inr (by decide))).2.1 (Or.inl rfl)

/-- C24 counterexample: the error the body parser raises on malformed JSON,
with status 400 and its own message, is answered with status 400 and that
message as error text. -/
theorem errorMiddleware_relays_status_and_message :
    (errorMiddleware (.obj [("status", .num (.fin 400)),
        ("message", .str "Unexpected end of JSON input"), ("stack", .str "SyntaxError: at")])).status
        = .num (.fin 400)
      ∧ (errorMiddleware (.obj [("status", .num (.fin 400)),
        ("message", .str "Unexpected end of JSON input"), ("stack", .str "SyntaxError: at")])).body
        = .obj [("success", .bool false), ("error", .str "Unexpected end of JSON input")] := by
  have hs : (JSVal.num (.fin 400)).truthy = true := by norm_num [JSVal.truthy, JSNum.truthy]
  have hp : (JSVal.obj [("status", .num (.fin 400)),
      ("message", .str "Unexpected end of JSON input"), ("stack", .str "SyntaxError: at")]).prop
      "status" = .num (.fin 400) := rfl
  constructor
  · simp only [errorMiddleware, hp, JSVal.or, hs, if_true]
  · rfl

/-- C24 amended: for every error that reaches the error middleware, the
status of the answer is the status of the error when it has a truthy one and
500 otherwise, and the error text is the message of the error when it has a
truthy one and "Internal server error" otherwise; the body has the fields
success, which is false, and error, and no other: the stack is never in it.
Every request that no route matched gets 404 with the body {success: false,
error: "Route not found"}. -/
theorem global_fallbacks (err : JSVal) :
    ((err.prop "status").truthy = true → (errorMiddleware err).status = err.prop "status")
    ∧ ((err.prop "status").truthy = false → (errorMiddleware err).status = .num (.fin 500))
    ∧ ((err.prop "message").truthy = true →
        (errorMiddleware err).body.prop "error" = err.prop "message")
    ∧ ((err.prop "message").truthy = false →
        (errorMiddleware err).body.prop "error" = .str "Internal server error")
    ∧ (errorMiddleware err).body.keys = ["success", "error"]
    ∧ (errorMiddleware err).body.prop "success" = .bool false
    ∧ (∀ method path : String, notFoundHandler method path
        = ⟨404, .obj [("success", .bool false), ("error", .str "Route not found")]⟩) := by
  have hbody : (errorMiddleware err).body.prop "error"
      = (err.prop "message").or (.str "Internal server error") := rfl
  refine ⟨?_, ?_, ?_, ?_, rfl, rfl, fun _ _ => rfl⟩
  · intro h
    simp [errorMiddleware, JSVal.or, h]
  · intro h
    simp [errorMiddleware, JSVal.or, h]
  · intro h
    rw [hbody]
    simp [JSVal.or, h]
  · intro h
    rw [hbody]
    simp [JSVal.or, h]

/-! ## C25: the pool -/

/-- C25: for every pool and every outcome of the statement, `query` leaves as
many connections checked out as it found.  When the connection is acquired it
is acquired once and released once, and `query` returns the rows of the
statement or rethrows its error; when the acquisition fails nothing is
acquired or released, the pool is untouched and the error is rethrown. -/
theorem query_releases_connection {ε ρ : Type} (acquire : Option ε) (run : Except ε ρ)
    (pool : Pool) :
    (query acquire run pool).pool = pool
    ∧ (acquire = none →
        (query acquire run pool).events = [.acquired, .released]
          ∧ (query acquire run pool).outcome = run)
    ∧ (∀ error, acquire = some error →
        (query acquire run pool).events = []
          ∧ (query acquire run pool).outcome = .error error) := by
  refine ⟨?_, ?_, ?_⟩
  · cases acquire with
    | some error => rfl
    | none => cases run <;> simp [query, Pool.getConnection, Pool.release]
  · rintro rfl
    cases run <;> simp [query]
  · rintro error rfl
    simp [query]

/-! ## C26: the base URL -/

/-- C26: the failing input evaluated.  For a page opened from a file (and
likewise for a page on port 5500) `getApiBaseUrl` of `api.js` returns the URL
with port 3000 and the one of `permissions.js` the URL with port 3001. -/
theorem getApiBaseUrl_ports_differ :
    Api.getApiBaseUrl ⟨"file:", "", ""⟩ = "http://localhost:3000"
      ∧ Permissions.getApiBaseUrl ⟨"file:", "", ""⟩ = "http://localhost:3001"
      ∧ Api.getApiBaseUrl ⟨"http:", "localhost", "5500"⟩ = "http://localhost:3000"
      ∧ Permissions.getApiBaseUrl ⟨"http:", "localhost", "5500"⟩ = "http://localhost:3001"
      ∧ Api.getApiBaseUrl ⟨"file:", "", ""⟩ ≠ Permissions.getApiBaseUrl ⟨"file:", "", ""⟩ := by
  refine ⟨by rfl, by rfl, by rfl, by rfl, by decide⟩

theorem getApiBaseUrl_same_elsewhere (loc : Location) (hfile : loc.protocol ≠ "file:")
    (h5500 : loc.port ≠ "5500") (h5501 : loc.port ≠ "5501")
    (hhost : loc.hostname ≠ "127.0.0.1") :
    Api.getApiBaseUrl loc = Permissions.getApiBaseUrl loc := by
  simp [Api.getApiBaseUrl, Permissions.getApiBaseUrl, hfile, h5500, h5501, hhost]

/-! ## C30: CORS -/

/-- C30: for every configuration and every origin, absent or any string, the
origin function calls back with no error and true: membership in the list of
allowed origins does not change the outcome. -/
theorem corsOrigin_accepts_every_origin (cfg : Config) (origin : Option String) :
    corsOrigin cfg origin = ⟨.null, true⟩ := by
  simp only [corsOrigin]
  repeat' split
  all_goals rfl

/-! ## C27 and C28: the client -/

theorem chatCatch_body_obj (error : AxiosError) :
    ∃ fields, (chatCatch error).body = .obj fields := by
  obtain ⟨v, _, hv⟩ := chatCatch_body error
  exact ⟨_, hv⟩

theorem handle_body_obj (cfg : Config) (ext : Ext) (db : Db) (sess : Session) (req : Request) :
    ∃ fields, (handle cfg ext db sess req).resp.body = .obj fields := by
  obtain ⟨route, body, query⟩ := req
  cases route
  case signup =>
    show ∃ fields, (signup ext db sess body).resp.body = .obj fields
    simp only [signup]
    repeat' split
    all_goals exact ⟨_, rfl⟩
  case login =>
    show ∃ fields, (login ext db sess body).resp.body = .obj fields
    simp only [login]
    repeat' split
    all_goals exact ⟨_, rfl⟩
  case logout =>
    show ∃ fields, (logout ext db sess).resp.body = .obj fields
    simp only [logout]
    repeat' split
    all_goals exact ⟨_, rfl⟩
  case status =>
    show ∃ fields, (status db sess).resp.body = .obj fields
    simp only [status]
    repeat' split
    all_goals exact ⟨_, rfl⟩
  case postMoods =>
    show ∃ fields, (postMoods ext db sess body).resp.body = .obj fields
    simp only [postMoods]
    repeat' split
    all_goals exact ⟨_, rfl⟩
  case getMoods =>
    show ∃ fields, (getMoods ext db sess).resp.body = .obj fields
    simp only [getMoods]
    repeat' split
    all_goals exact ⟨_, rfl⟩
  case postMessages =>
    show ∃ fields, (postMessages ext db sess body).resp.body = .obj fields
    simp only [postMessages]
    repeat' split
    all_goals exact ⟨_, rfl⟩
  case getMessages =>
    show ∃ fields, (getMessages ext db sess).resp.body = .obj fields
    simp only [getMessages]
    repeat' split
    all_goals exact ⟨_, rfl⟩
  case getResources =>
    show ∃ fields, (getResources ext db sess query).resp.body = .obj fields
    simp only [getResources]
    repeat' split
    all_goals exact ⟨_, rfl⟩
  case postChat =>
    show ∃ fields, (postChat cfg ext db sess body).resp.body = .obj fields
    simp only [postChat]
    repeat' split
    all_goals first
      | exact ⟨_, rfl⟩
      | exact chatCatch_body_obj _
  case postContact =>
    show ∃ fields, (postContact cfg ext db sess body).resp.body = .obj fields
    simp only [postContact]
    repeat' split
    all_goals exact ⟨_, rfl⟩
  case health => exact ⟨_, rfl⟩

theorem apiRequest_of_success (env : BrowserEnv) (loc : Location)
    (fetch : FetchRequest → FetchOutcome) (endpoint : String) (method body : Option String)
    (r : FetchResponse) (d : JSVal) (contentType : String)
    (hfetch : fetch ⟨Api.getApiBaseUrl loc ++ endpoint, method, body⟩ = .resolved r)
    (hct : r.contentType = some contentType)
    (hjson : jsIncludes contentType "application/json" = true)
    (hlo : 200 ≤ r.status) (hhi : r.status ≤ 299) (hd : r.json = .ok d) :
    apiRequest env loc fetch endpoint method body
      = match normaliseBody d with
        | none => .error (apiCatch "TypeError" env.typeErrorMessage none none)
        | some value => .ok value := by
  simp [apiRequest, hfetch, hct, hjson, hlo, hhi, hd]

/-- C27: for every response of the backend with a 2xx status and a JSON body
d (a value other than null, as every body the handlers send is an object),
apiRequest returns d itself when `d.success` or `d.reply` is not undefined,
and {success: true, data: d} otherwise; the value it returns has success or
reply defined, and normalising that value again returns it unchanged. -/
theorem apiRequest_normalises (env : BrowserEnv) (loc : Location)
    (fetch : FetchRequest → FetchOutcome) (endpoint : String) (method body : Option String)
    (r : FetchResponse) (d : JSVal) (contentType : String)
    (hfetch : fetch ⟨Api.getApiBaseUrl loc ++ endpoint, method, body⟩ = .resolved r)
    (hct : r.contentType = some contentType)
    (hjson : jsIncludes contentType "application/json" = true)
    (hlo : 200 ≤ r.status) (hhi : r.status ≤ 299) (hd : r.json = .ok d)
    (hnull : d.isNullish = false) :
    ((d.prop "success" ≠ .undefined ∨ d.prop "reply" ≠ .undefined) →
        apiRequest env loc fetch endpoint method body = .ok d)
    ∧ (d.prop "success" = .undefined → d.prop "reply" = .undefined →
        apiRequest env loc fetch endpoint method body
          = .ok (.obj [("success", .bool true), ("data", d)]))
    ∧ (∃ v, apiRequest env loc fetch endpoint method body = .ok v
        ∧ (v.prop "success" ≠ .undefined ∨ v.prop "reply" ≠ .undefined)
        ∧ normaliseBody v = some v)
    ∧ (∀ (cfg : Config) (ext : Ext) (db : Db) (sess : Session) (req : Request),
        (handle cfg ext db sess req).resp.body.isNullish = false) := by
  have hundef : ∀ v : JSVal, v.isUndefined = true ↔ v = .undefined := by
    intro v
    cases v <;> simp [JSVal.isUndefined]
  have hreq := apiRequest_of_success env loc fetch endpoint method body r d contentType hfetch
    hct hjson hlo hhi hd
  have hwrap : normaliseBody (.obj [("success", .bool true), ("data", d)])
      = some (.obj [("success", .bool true), ("data", d)]) := rfl
  by_cases hdef : d.prop "success" ≠ .undefined ∨ d.prop "reply" ≠ .undefined
  · have hcond : (!(d.prop "success").isUndefined || !(d.prop "reply").isUndefined) = true := by
      rcases hdef with h | h
      · have : (d.prop "success").isUndefined = false := by
          cases hu : (d.prop "success").isUndefined
          · rfl
          · exact absurd ((hundef _).mp hu) h
        simp [this]
      · have : (d.prop "reply").isUndefined = false := by
          cases hu : (d.prop "reply").isUndefined
          · rfl
          · exact absurd ((hundef _).mp hu) h
        simp [this]
    have hnorm : normaliseBody d = some d := by
      simp only [normaliseBody, hnull, hcond]
      simp
    rw [hnorm] at hreq
    refine ⟨fun _ => hreq, ?_, ⟨d, hreq, hdef, hnorm⟩, ?_⟩
    · intro h1 h2
      rcases hdef with h | h
      · exact absurd h1 h
      · exact absurd h2 h
    · intro cfg ext db sess req
      obtain ⟨fields, hf⟩ := handle_body_obj cfg ext db sess req
      rw [hf]
      rfl
  · have hboth : d.prop "success" = .undefined ∧ d.prop "reply" = .undefined := by
      constructor
      · by_contra h
        exact hdef (Or.inl h)
      · by_contra h
        exact hdef (Or.inr h)
    have hnorm : normaliseBody d = some (.obj [("success", .bool true), ("data", d)]) := by
      simp [normaliseBody, hnull, hboth.1, hboth.2, JSVal.isUndefined]
    rw [hnorm] at hreq
    refine ⟨fun h => absurd h hdef, fun _ _ => hreq,
      ⟨_, hreq, Or.inl (by simp [JSVal.prop, List.lookup]), hwrap⟩, ?_⟩
    intro cfg ext db sess req
    obtain ⟨fields, hf⟩ := handle_body_obj cfg ext db sess req
    rw [hf]
    rfl

/-- C27 witness: the answer {authenticated: false} of the status handler has
neither success nor reply and is wrapped. -/
theorem apiRequest_normalises_witness :
    apiRequest sampleBrowser ⟨"http:", "localhost", "3001"⟩ (statusFetch Session.empty)
        "/api/auth/status" none none
      = .ok (.obj [("success", .bool true), ("data", .obj [("authenticated", .bool false)])]) :=
  (apiRequest_normalises sampleBrowser ⟨"http:", "localhost", "3001"⟩
    (statusFetch Session.empty) "/api/auth/status" none none
    ⟨200, "OK", some "application/json; charset=utf-8", "",
      .ok (status sampleDb Session.empty).resp.body⟩
    (.obj [("authenticated", .bool false)]) "application/json; charset=utf-8"
    rfl rfl (by decide) (by decide) (by decide) rfl rfl).2.1 rfl rfl

theorem checkAuthStatusBody_of_status_answer (env : BrowserEnv) (loc : Location)
    (fetch : FetchRequest → FetchOutcome) (r : FetchResponse) (contentType : String)
    (db : Db) (sess : Session) (hasAuth : Bool) (storage : Storage)
    (hfetch : fetch ⟨Api.getApiBaseUrl loc ++ "/api/auth/status", none, none⟩ = .resolved r)
    (hct : r.contentType = some contentType)
    (hjson : jsIncludes contentType "application/json" = true)
    (hlo : 200 ≤ r.status) (hhi : r.status ≤ 299)
    (hd : r.json = .ok (status db sess).resp.body) :
    Api.getStatus env loc fetch
        = .ok (.obj [("success", .bool true), ("data", (status db sess).resp.body)])
      ∧ checkAuthStatusBody env true hasAuth (Api.getStatus env loc fetch) storage
        = (.null, storage) := by
  have hreq := apiRequest_of_success env loc fetch "/api/auth/status" none none r
    (status db sess).resp.body contentType hfetch hct hjson hlo hhi hd
  have hnorm : normaliseBody (status db sess).resp.body
      = some (.obj [("success", .bool true), ("data", (status db sess).resp.body)]) := by
    simp only [status]
    split <;> rfl
  rw [hnorm] at hreq
  have hget : Api.getStatus env loc fetch
      = .ok (.obj [("success", .bool true), ("data", (status db sess).resp.body)]) := hreq
  refine ⟨hget, ?_⟩
  rw [hget]
  have hauth : (JSVal.obj [("success", .bool true),
      ("data", (status db sess).resp.body)]).prop "authenticated" = .undefined := rfl
  simp [checkAuthStatusBody, hauth, JSVal.truthy]

theorem checkAuthStatus_never_defined (env : BrowserEnv) (hasApi hasAuth : Bool)
    (getStatus : Except ApiError JSVal) (storage : Storage) :
    checkAuthStatus env hasApi hasAuth getStatus storage = none := by
  have hdup : declaredTwice updateNavbarBlockDeclarations = true := by decide
  simp [checkAuthStatus, hdup]

/-- C28: the failing input evaluated.  A page loads `public/user-info.js` in
the session of ann, where the status handler answers {authenticated: true,
user: {id: 1, name: "ann", email: "a@x.com"}}.  The block `if (user)` of
`updateNavbar` declares `const userInfoContainer` twice, so the engine rejects
the whole script and `checkAuthStatus` is never defined: nothing is returned
and nothing is stored.  The body of the function would not return the user
either: apiRequest wraps the status answer as {success: true, data: ...}, so
`result.authenticated` is undefined and the body returns null and leaves
localStorage as it was. -/
theorem checkAuthStatus_not_defined_for_ann :
    updateNavbarBlockDeclarations.count "userInfoContainer" = 2
      ∧ declaredTwice updateNavbarBlockDeclarations = true
      ∧ (status sampleDb annSession).resp.body = .obj [("authenticated", .bool true),
        ("user", .obj [("id", .num (JSNum.ofNat 1)), ("name", .str "ann"),
          ("email", .str "a@x.com")])]
      ∧ checkAuthStatus sampleBrowser true true
          (Api.getStatus sampleBrowser ⟨"http:", "localhost", "3001"⟩ (statusFetch annSession))
          [] = none
      ∧ Api.getStatus sampleBrowser ⟨"http:", "localhost", "3001"⟩ (statusFetch annSession)
        = .ok (.obj [("success", .bool true), ("data", (status sampleDb annSession).resp.body)])
      ∧ checkAuthStatusBody sampleBrowser true true
          (Api.getStatus sampleBrowser ⟨"http:", "localhost", "3001"⟩ (statusFetch annSession))
          [] = (.null, []) := by
  have h := checkAuthStatusBody_of_status_answer sampleBrowser ⟨"http:", "localhost", "3001"⟩
    (statusFetch annSession)
    ⟨200, "OK", some "application/json; charset=utf-8", "",
      .ok (status sampleDb annSession).resp.body⟩
    "application/json; charset=utf-8" sampleDb annSession true [] rfl rfl (by decide)
    (by decide) (by decide) rfl
  exact ⟨by decide, by decide, rfl, checkAuthStatus_never_defined _ _ _ _ _, h.1, h.2⟩

/-! ## C29: login soundness -/

/-- C29: when login answers 200, the user placed in the session is a row of
the users table whose email or name is the submitted username and whose hash
bcrypt found to match the submitted password; it is the first row the lookup
returned.  Only that first row is checked: in a table with two users named
sam, a login with the name and the password of the second is answered 401,
although the second row matches the username and its hash matches the
password. -/
theorem login_sound (ext : Ext) (db : Db) (sess : Session) (body : JSVal)
    (hsuccess : (login ext db sess body).resp.status = 200) :
    (∃ row ∈ db.users,
        (row.email = bindText ext (body.prop "username")
          ∨ row.name = bindText ext (body.prop "username"))
        ∧ ext.compare (body.prop "password") row.password = some true
        ∧ (usersMatching ext db (body.prop "username")).head? = some row
        ∧ (login ext db sess body).session = ⟨some row.id, .str row.name, .str row.email⟩)
    ∧ ((login sampleExt sameNameDb Session.empty
          (.obj [("username", .str "sam"), ("password", .str "second-pass")])).resp
        = ⟨401, .obj [("error", .str "Invalid credentials")]⟩
      ∧ ∃ row ∈ usersMatching sampleExt sameNameDb (.str "sam"),
          sampleExt.compare (.str "second-pass") row.password = some true) := by
  constructor
  · cases h1 : body.isNullish
    case true => simp [login, h1] at hsuccess
    case false =>
    cases h2 : (!(body.prop "username").truthy || !(body.prop "password").truthy)
    case true => simp [login, h1, h2] at hsuccess
    case false =>
    cases h3 : ext.dbFails 0
    case true => simp [login, h1, h2, h3] at hsuccess
    case false =>
    cases hm : usersMatching ext db (body.prop "username")
    case nil => simp [login, h1, h2, h3, hm] at hsuccess
    case cons user rest =>
    cases hc : ext.compare (body.prop "password") user.password
    case none => simp [login, h1, h2, h3, hm, hc] at hsuccess
    case some isValid =>
    cases isValid
    case false => simp [login, h1, h2, h3, hm, hc] at hsuccess
    case true =>
    have hmem : user ∈ usersMatching ext db (body.prop "username") := by
      rw [hm]
      exact List.mem_cons_self _ _
    have hfilter := List.mem_filter.mp hmem
    refine ⟨user, hfilter.1, ?_, hc, by simp, ?_⟩
    · simpa using hfilter.2
    · simp [login, h1, h2, h3, hm, hc]
  · refine ⟨by rfl, ⟨2, "sam", "sam2@x.com", "$2a$10$second-pass"⟩, by decide, by rfl⟩

/-- C29 witness: ann logs in by email. -/
theorem login_sound_witness :
    ∃ row ∈ sampleDb.users,
      (row.email = "a@x.com" ∨ row.name = "a@x.com")
        ∧ (login sampleExt sampleDb Session.empty
            (.obj [("username", .str "a@x.com"), ("password", .str "secret1")])).session
          = ⟨some row.id, .str row.name, .str row.email⟩ := by
  obtain ⟨row, hmem, hmatch, _, _, hsess⟩ := (login_sound sampleExt sampleDb Session.empty
    (.obj [("username", .str "a@x.com"), ("password", .str "secret1")]) rfl).1
  exact ⟨row, hmem, hmatch, hsess⟩

end Calmora
